import Mathlib

/-!
Verification development for the repository-introspection engine
implemented in `guides/mcp/code-reviewer/reviewer.py`.

The Python source is shallowly embedded: pure helper functions become Lean
functions on `String` / `List`; the repository file system is a map from
file names to byte contents; the standard-library JSON/TOML/INI decoders
(external collaborators of the core) are abstracted as parameters that
return either a structured value or an error message, exactly as the
source's `_read_json` / `_read_toml` / `_read_ini` wrappers surface them.

Python semantics modelled explicitly:
  * `str.strip` / `lstrip` / `rstrip` use Python's Unicode whitespace set;
  * `str.splitlines` splits on Python's line-boundary set, treating
    `\r\n` as a single boundary and dropping a trailing empty segment;
  * `dict` assignment replaces the value of the first occurrence of a key
    in the association list and otherwise appends (insertion order kept);
  * `str.lower` is modelled on the ASCII range (all identifiers the
    detection tables consult are ASCII);
  * `bytes.decode("utf-8", errors="replace")` is a total decoder that
    replaces each maximal invalid subsequence with U+FFFD.
-/

namespace CodeReviewer

/-- Python's `str.isspace` character set (the set used by `str.strip()`
and by the regex class `\s`). -/
def pyIsSpace (c : Char) : Bool :=
  decide (c.toNat = 0x20 ∨ (9 ≤ c.toNat ∧ c.toNat ≤ 13) ∨ c.toNat = 0x1c ∨
    c.toNat = 0x1d ∨ c.toNat = 0x1e ∨ c.toNat = 0x85 ∨ c.toNat = 0xa0 ∨
    c.toNat = 0x1680 ∨ (0x2000 ≤ c.toNat ∧ c.toNat ≤ 0x200a) ∨
    c.toNat = 0x2028 ∨ c.toNat = 0x2029 ∨ c.toNat = 0x202f ∨
    c.toNat = 0x205f ∨ c.toNat = 0x3000)

/-- Python's `str.splitlines` line-boundary character set. -/
def isLineBreak (c : Char) : Bool :=
  decide (c.toNat = 10 ∨ c.toNat = 11 ∨ c.toNat = 12 ∨ c.toNat = 13 ∨
    c.toNat = 0x1c ∨ c.toNat = 0x1d ∨ c.toNat = 0x1e ∨ c.toNat = 0x85 ∨
    c.toNat = 0x2028 ∨ c.toNat = 0x2029)

def pyLstripL (l : List Char) : List Char := l.dropWhile pyIsSpace

def pyRstripL (l : List Char) : List Char := (l.reverse.dropWhile pyIsSpace).reverse

def pyStripL (l : List Char) : List Char := pyLstripL (pyRstripL l)

def pyLstrip (s : String) : String := String.mk (pyLstripL s.data)

def pyRstrip (s : String) : String := String.mk (pyRstripL s.data)

def pyStrip (s : String) : String := String.mk (pyStripL s.data)

/-- Strip a single character (by code point) from both ends, modelling
Python's `str.strip('"')` / `str.strip("'")`. -/
def stripCharL (code : Nat) (l : List Char) : List Char :=
  ((l.dropWhile (fun c => c.toNat == code)).reverse.dropWhile
      (fun c => c.toNat == code)).reverse

def pyStartsWith (s pre : String) : Bool := pre.data.isPrefixOf s.data

def pyEndsWith (s suf : String) : Bool := suf.data.isSuffixOf s.data

/-- Worker for `str.splitlines`: accumulates the current line (reversed);
`\r\n` counts as a single boundary. -/
def splitlinesAux : List Char → List Char → List (List Char)
  | [], acc => if acc = [] then [] else [acc.reverse]
  | '\r' :: '\n' :: rest, acc => acc.reverse :: splitlinesAux rest []
  | c :: rest, acc =>
    if isLineBreak c then acc.reverse :: splitlinesAux rest []
    else splitlinesAux rest (c :: acc)

/-- Python's `str.splitlines()`. -/
def pySplitlines (s : String) : List String :=
  (splitlinesAux s.data []).map String.mk

/-- Worker for `str.split()` with no separator. -/
def pyWordsAux : List Char → List Char → List String
  | [], cur => if cur = [] then [] else [String.mk cur.reverse]
  | c :: rest, cur =>
    if pyIsSpace c then
      if cur = [] then pyWordsAux rest []
      else String.mk cur.reverse :: pyWordsAux rest []
    else pyWordsAux rest (c :: cur)

/-- Python's `str.split()` (split on whitespace runs, no empty parts). -/
def pyWords (s : String) : List String := pyWordsAux s.data []

/-- Substring containment on character lists (Python's `sub in s`). -/
def strContainsL (pat : List Char) : List Char → Bool
  | [] => pat.isEmpty
  | c :: t => pat.isPrefixOf (c :: t) || strContainsL pat t

def pyContains (s sub : String) : Bool := strContainsL sub.data s.data

def asciiLowerChar (c : Char) : Char :=
  if 65 ≤ c.toNat ∧ c.toNat ≤ 90 then Char.ofNat (c.toNat + 32) else c

/-- Python's `str.lower`, modelled on the ASCII range. -/
def asciiLower (s : String) : String := String.mk (s.data.map asciiLowerChar)

/-- `str.split("\n")` (plain newline split keeping empty parts), the line
decomposition relevant to `re.MULTILINE` anchoring. -/
def splitOnNlAux : List Char → List Char → List (List Char)
  | [], cur => [cur.reverse]
  | c :: rest, cur =>
    if c = '\n' then cur.reverse :: splitOnNlAux rest []
    else splitOnNlAux rest (c :: cur)

def splitOnNl (s : String) : List String :=
  (splitOnNlAux s.data []).map String.mk

/-- Join lines with a newline separator (used to build test inputs the
way the Python files under analysis store them). -/
def joinLines : List String → String
  | [] => ""
  | [l] => l
  | l :: rest => l ++ "\n" ++ joinLines rest

/-- Python `dict` assignment `d[k] = v` on an insertion-ordered
association list: the first entry with key `k` is replaced in place,
otherwise the pair is appended. -/
def pyDictInsert {α : Type} : List (String × α) → String → α → List (String × α)
  | [], k, v => [(k, v)]
  | (k1, v1) :: rest, k, v =>
    if k1 = k then (k1, v) :: rest else (k1, v1) :: pyDictInsert rest k v

/-- Python `dict` lookup `d.get(k)`. -/
def pyDictGet {α : Type} : List (String × α) → String → Option α
  | [], _ => none
  | (k1, v) :: rest, k => if k1 = k then some v else pyDictGet rest k

/-- Python `d1.update(d2)`. -/
def pyDictUpdate {α : Type} (d : List (String × α)) (m : List (String × α)) :
    List (String × α) :=
  m.foldl (fun acc kv => pyDictInsert acc kv.1 kv.2) d

/-- Python `set.add` on a membership-ordered list model of a set. -/
def setAdd (l : List String) (x : String) : List String :=
  if l.contains x then l else l ++ [x]

/-- Python `set.update` with an iterable. -/
def setAddAll (l : List String) (xs : List String) : List String :=
  xs.foldl setAdd l

/-! ### Bounded reader (`_read_text`) and UTF-8 replacement decoding -/

def replacementChar : Char := Char.ofNat 0xfffd

def isUtf8Cont (b : Nat) : Bool := decide (0x80 ≤ b ∧ b ≤ 0xbf)

/-- Valid second byte for a three-byte UTF-8 lead. -/
def utf8Second3 (b c : Nat) : Bool :=
  if b = 0xe0 then decide (0xa0 ≤ c ∧ c ≤ 0xbf)
  else if b = 0xed then decide (0x80 ≤ c ∧ c ≤ 0x9f)
  else isUtf8Cont c

/-- Valid second byte for a four-byte UTF-8 lead. -/
def utf8Second4 (b c : Nat) : Bool :=
  if b = 0xf0 then decide (0x90 ≤ c ∧ c ≤ 0xbf)
  else if b = 0xf4 then decide (0x80 ≤ c ∧ c ≤ 0x8f)
  else isUtf8Cont c

/-- Worker for the replacement decoder.  Each step consumes at least one
byte, so the byte count is enough fuel. -/
def decodeUtf8ReplaceAux : Nat → List Nat → List Char
  | 0, _ => []
  | _ + 1, [] => []
  | fuel + 1, b :: rest =>
    if b < 0x80 then Char.ofNat b :: decodeUtf8ReplaceAux fuel rest
    else if 0xc2 ≤ b ∧ b ≤ 0xdf then
      match rest with
      | [] => [replacementChar]
      | c1 :: rest1 =>
        if isUtf8Cont c1 then
          Char.ofNat ((b - 0xc0) * 64 + (c1 - 0x80)) ::
            decodeUtf8ReplaceAux fuel rest1
        else replacementChar :: decodeUtf8ReplaceAux fuel rest
    else if 0xe0 ≤ b ∧ b ≤ 0xef then
      match rest with
      | [] => [replacementChar]
      | c1 :: rest1 =>
        if utf8Second3 b c1 then
          match rest1 with
          | [] => [replacementChar]
          | c2 :: rest2 =>
            if isUtf8Cont c2 then
              Char.ofNat ((b - 0xe0) * 4096 + (c1 - 0x80) * 64 + (c2 - 0x80)) ::
                decodeUtf8ReplaceAux fuel rest2
            else replacementChar :: decodeUtf8ReplaceAux fuel rest1
        else replacementChar :: decodeUtf8ReplaceAux fuel rest
    else if 0xf0 ≤ b ∧ b ≤ 0xf4 then
      match rest with
      | [] => [replacementChar]
      | c1 :: rest1 =>
        if utf8Second4 b c1 then
          match rest1 with
          | [] => [replacementChar]
          | c2 :: rest2 =>
            if isUtf8Cont c2 then
              match rest2 with
              | [] => [replacementChar]
              | c3 :: rest3 =>
                if isUtf8Cont c3 then
                  Char.ofNat ((b - 0xf0) * 262144 + (c1 - 0x80) * 4096 +
                      (c2 - 0x80) * 64 + (c3 - 0x80)) ::
                    decodeUtf8ReplaceAux fuel rest3
                else replacementChar :: decodeUtf8ReplaceAux fuel rest2
            else replacementChar :: decodeUtf8ReplaceAux fuel rest1
        else replacementChar :: decodeUtf8ReplaceAux fuel rest
    else replacementChar :: decodeUtf8ReplaceAux fuel rest

/-- `bytes.decode("utf-8", errors="replace")`: total UTF-8 decoding where
each maximal invalid subsequence becomes one U+FFFD. -/
def decodeUtf8Replace (data : List Nat) : List Char :=
  decodeUtf8ReplaceAux data.length data

/-- `_read_text(path, max_bytes)`: the file's bytes are the input; at most
`max_bytes` bytes are kept, the excess sets the truncation flag, and the
kept prefix is decoded with replacement. -/
def read_text (data : List Nat) (max_bytes : Nat) : String × Bool :=
  if max_bytes < data.length then
    (String.mk (decodeUtf8Replace (data.take max_bytes)), true)
  else (String.mk (decodeUtf8Replace data), false)

/-- UTF-8 bytes of an ASCII string (used to build concrete repositories). -/
def strBytes (s : String) : List Nat := s.data.map Char.toNat

/-! ### Size limits and bounded summaries -/

def MAX_FILE_BYTES : Nat := 60000

def MAX_DEPENDENCIES : Nat := 200

structure DepsSummary where
  dependencies : List (String × String)
  truncated : Bool
deriving DecidableEq, Repr

structure ListSummary where
  items : List String
  truncated : Bool
deriving DecidableEq, Repr

/-- The two shapes of per-file dependency summaries stored in the
context's `dependencies` mapping. -/
inductive DepEntry : Type
  | depsMap (d : DepsSummary)
  | itemList (l : ListSummary)
deriving DecidableEq, Repr

/-- `_summarize_dependencies`. -/
def summarize_dependencies (dep_map : List (String × String)) : DepsSummary :=
  if MAX_DEPENDENCIES < dep_map.length then
    ⟨dep_map.take MAX_DEPENDENCIES, true⟩
  else ⟨dep_map, false⟩

/-- `_summarize_list`. -/
def summarize_list (values : List String) : ListSummary :=
  if MAX_DEPENDENCIES < values.length then
    ⟨values.take MAX_DEPENDENCIES, true⟩
  else ⟨values, false⟩

/-! ### Line-oriented extractors -/

/-- Worker for `_extract_requirements`: skip blank, comment and
`-`-prefixed lines, keep the stripped line, stop once the accumulated
list reaches `MAX_DEPENDENCIES` entries. -/
def extract_requirements_aux : List String → List String → List String
  | [], deps => deps
  | line :: rest, deps =>
    let l := pyStrip line
    if l = "" ∨ pyStartsWith l ("#") then extract_requirements_aux rest deps
    else if pyStartsWith l ("-") then extract_requirements_aux rest deps
    else
      let deps2 := deps ++ [l]
      if MAX_DEPENDENCIES ≤ deps2.length then deps2
      else extract_requirements_aux rest deps2

/-- `_extract_requirements`. -/
def extract_requirements (text : String) : List String :=
  extract_requirements_aux (pySplitlines text) []

/-- One line of `_extract_tool_versions`: a whitespace-pair line becomes
a dictionary entry (a repeated key overwrites the earlier value). -/
def toolVersionsStep (versions : List (String × String)) (line : String) :
    List (String × String) :=
  let l := pyStrip line
  if l = "" ∨ pyStartsWith l ("#") then versions
  else
    match pyWords l with
    | k :: v :: _ => pyDictInsert versions k v
    | _ => versions

/-- `_extract_tool_versions`. -/
def extract_tool_versions (text : String) : List (String × String) :=
  (pySplitlines text).foldl toolVersionsStep []

/-- The regex `gem\s+["']([^"']+)["']` applied with `re.match` to an
already-stripped line. -/
def gem_line_match (l : String) : Option String :=
  match l.data with
  | 'g' :: 'e' :: 'm' :: rest =>
    if (rest.takeWhile pyIsSpace) = [] then none
    else
      match rest.dropWhile pyIsSpace with
      | [] => none
      | q :: r2 =>
        if q.toNat = 34 ∨ q.toNat = 39 then
          let nm := r2.takeWhile (fun c => !(c.toNat == 34 || c.toNat == 39))
          let r3 := r2.dropWhile (fun c => !(c.toNat == 34 || c.toNat == 39))
          if nm ≠ [] ∧ r3 ≠ [] then some (String.mk nm) else none
        else none
  | _ => none

/-- `_extract_ruby_gems`. -/
def extract_ruby_gems_aux : List String → List String → List String
  | [], gems => gems
  | line :: rest, gems =>
    let l := pyStrip line
    if l = "" ∨ pyStartsWith l ("#") then extract_ruby_gems_aux rest gems
    else
      let gems2 := match gem_line_match l with
                   | some g => gems ++ [g]
                   | none => gems
      if MAX_DEPENDENCIES ≤ gems2.length then gems2
      else extract_ruby_gems_aux rest gems2

def extract_ruby_gems (text : String) : List String :=
  extract_ruby_gems_aux (pySplitlines text) []

/-- `_extract_ruby_version`: the first stripped line starting with
`ruby ` yields the remainder after the first space, stripped of
whitespace and then of double and single quotes. -/
def extract_ruby_version (text : String) : Option String :=
  (pySplitlines text).findSome? (fun line =>
    let l := pyStrip line
    if pyStartsWith l ("ruby ") then
      some (String.mk (stripCharL 39 (stripCharL 34 (pyStripL (l.data.drop 5)))))
    else none)

/-- One attempted match of `id\(["']([^"']+)["']\)` at the head of the
character list; on success returns the captured plugin id and the
remainder after the match. -/
def gradle_id_match (cs : List Char) : Option (String × List Char) :=
  match cs with
  | 'i' :: 'd' :: '(' :: r1 =>
    match r1 with
    | [] => none
    | q :: r2 =>
      if q.toNat = 34 ∨ q.toNat = 39 then
        let nm := r2.takeWhile (fun c => !(c.toNat == 34 || c.toNat == 39))
        let r3 := r2.dropWhile (fun c => !(c.toNat == 34 || c.toNat == 39))
        match r3 with
        | _ :: ')' :: r5 => if nm ≠ [] then some (String.mk nm, r5) else none
        | _ => none
      else none
  | _ => none

/-- `re.finditer` scan for `_extract_gradle_plugins` (fuel-driven: each
step consumes at least one character, so the text length bounds the
number of steps). -/
def extract_gradle_plugins_aux : Nat → List Char → List String → List String
  | 0, _, plugins => plugins
  | _ + 1, [], plugins => plugins
  | fuel + 1, c :: rest, plugins =>
    match gradle_id_match (c :: rest) with
    | some (nm, r5) =>
      let p2 := plugins ++ [nm]
      if 25 ≤ p2.length then p2
      else extract_gradle_plugins_aux fuel r5 p2
    | none => extract_gradle_plugins_aux fuel rest plugins

/-- `_extract_gradle_plugins`. -/
def extract_gradle_plugins (text : String) : List String :=
  extract_gradle_plugins_aux text.data.length text.data []

/-- `re.search(rf"<key>([^<]+)</key>", text)` probed at the head of the
character list. -/
def pom_key_match (key : String) (cs : List Char) : Option String :=
  let openTag := ("<" ++ key ++ ">").data
  let closeTag := ("</" ++ key ++ ">").data
  if openTag.isPrefixOf cs then
    let r := cs.drop openTag.length
    let v := r.takeWhile (fun c => !(c == '<'))
    let r2 := r.dropWhile (fun c => !(c == '<'))
    if v ≠ [] ∧ closeTag.isPrefixOf r2 then some (String.mk v) else none
  else none

def pom_search_aux (key : String) : Nat → List Char → Option String
  | 0, _ => none
  | _ + 1, [] => none
  | fuel + 1, c :: rest =>
    match pom_key_match key (c :: rest) with
    | some v => some v
    | none => pom_search_aux key fuel rest

/-- `_extract_pom_info`. -/
def extract_pom_info (text : String) : List (String × String) :=
  [("groupId"), ("artifactId"), ("version")].foldl
    (fun info key =>
      match pom_search_aux key text.data.length text.data with
      | some v => pyDictInsert info key v
      | none => info)
    []

/-- The character class `[a-zA-Z0-9_-]` of the compose-service regex. -/
def isServiceChar (c : Char) : Bool :=
  decide ((48 ≤ c.toNat ∧ c.toNat ≤ 57) ∨ (65 ≤ c.toNat ∧ c.toNat ≤ 90) ∨
    (97 ≤ c.toNat ∧ c.toNat ≤ 122) ∨ c.toNat = 95 ∨ c.toNat = 45)

/-- `re.match(r"\s{2}([a-zA-Z0-9_-]+):", raw)`. -/
def compose_service_match (raw : String) : Option String :=
  match raw.data with
  | c1 :: c2 :: rest =>
    if pyIsSpace c1 ∧ pyIsSpace c2 then
      let nm := rest.takeWhile isServiceChar
      match rest.dropWhile isServiceChar with
      | ':' :: _ => if nm ≠ [] then some (String.mk nm) else none
      | _ => none
    else none
  | _ => none

/-- `_extract_docker_compose_services`: scan lines, enter the block at a
line starting with `services:`, record two-space-indented keys, break at
the first non-empty unindented line, cap at 25 entries. -/
def extract_docker_compose_services_aux :
    List String → Bool → List String → List String
  | [], _, services => services
  | line :: rest, inServices, services =>
    let raw := pyRstrip line
    if pyStartsWith raw ("services:") then
      extract_docker_compose_services_aux rest true services
    else if inServices then
      if raw = "" ∨ pyStartsWith raw (" ") then
        let services2 := match compose_service_match raw with
                         | some nm => services ++ [nm]
                         | none => services
        if 25 ≤ services2.length then services2
        else extract_docker_compose_services_aux rest inServices services2
      else services
    else if 25 ≤ services.length then services
    else extract_docker_compose_services_aux rest inServices services

def extract_docker_compose_services (text : String) : List String :=
  extract_docker_compose_services_aux (pySplitlines text) false []

/-- The Go directive pattern as written in the source:
`re.search(r"^module\\s+(.+)$", text, re.MULTILINE)`.  Inside the raw
string the doubled backslash denotes regex `\\` (a literal backslash
character) followed by `s+`, so a line matches only if the keyword is
followed by a literal backslash and at least one letter `s`, with the
capture group taking the rest of the line. -/
def go_line_match (keyword : String) (line : String) : Option String :=
  let pre := (keyword ++ ("\x5c")).data
  if pre.isPrefixOf line.data then
    let r := line.data.drop pre.length
    let sRun := r.takeWhile (fun c => c == 's')
    let after := r.dropWhile (fun c => c == 's')
    if sRun = [] then none
    else if after ≠ [] then some (String.mk after)
    else if 2 ≤ sRun.length then some ("s")
    else none
  else none

/-- Multiline `re.search` over the text: first line (in `\n` order) with
a match. -/
def go_directive_search (keyword : String) (text : String) : Option String :=
  (splitOnNl text).findSome? (fun line => go_line_match keyword line)

/-- The `go.mod` extraction of `init_repo_context` (lines 1101–1109). -/
def go_mod_info (text : String) : List (String × String) :=
  let i0 : List (String × String) := []
  let i1 := match go_directive_search ("module") text with
            | some m => pyDictInsert i0 ("module") (pyStrip m)
            | none => i0
  match go_directive_search ("go") text with
  | some g => pyDictInsert i1 ("version") (pyStrip g)
  | none => i1

/-- The per-requirement identifier isolation
`re.split(r"[=<>!~]", r, 1)[0]`. -/
def req_name_of (r : String) : String :=
  String.mk (r.data.takeWhile (fun c =>
    !(c == '=' || c == '<' || c == '>' || c == '!' || c == '~')))

/-- The pin-file version extraction
`text.strip().splitlines()[0] if text.strip() else ""`. -/
def pin_version (text : String) : String :=
  let st := pyStrip text
  if st = "" then "" else (pySplitlines st).headD ("")

/-! ### Structured values

JSON and TOML documents are decoded by the Python standard library, an
external collaborator of the core; the decoded shape is modelled by
`JValue` (numbers as integers, which covers every numeric field the
extraction tables consult). -/

inductive JValue : Type
  | null : JValue
  | bool (b : Bool) : JValue
  | num (n : Int) : JValue
  | str (s : String) : JValue
  | arr (elems : List JValue) : JValue
  | obj (fields : List (String × JValue)) : JValue

/-- `data.get(key)` on a decoded object's fields. -/
def jGet (fields : List (String × JValue)) (key : String) : Option JValue :=
  pyDictGet fields key

/-- Python truthiness of a decoded value. -/
def jFalsy : JValue → Bool
  | .null => true
  | .bool b => !b
  | .num n => n == 0
  | .str s => s == ""
  | .arr l => l.isEmpty
  | .obj l => l.isEmpty

/-- `data.get(key) or {}` followed by nothing: the raw value with falsy
values replaced by an empty object. -/
def jGetOrObj (fields : List (String × JValue)) (key : String) : JValue :=
  match jGet fields key with
  | none => .obj []
  | some v => if jFalsy v then .obj [] else v

/-- `data.get(key) or []`, falsy values replaced by an empty list. -/
def jGetOrArr (fields : List (String × JValue)) (key : String) : JValue :=
  match jGet fields key with
  | none => .arr []
  | some v => if jFalsy v then .arr [] else v

mutual

/-- Python `repr` of a JSON-decoded value (faithful for strings without
quote or escape characters, which is the shape of every value the
summaries retain). -/
def pyRepr : JValue → String
  | .null => "None"
  | .bool b => if b then "True" else "False"
  | .num n => toString n
  | .str s => "'" ++ s ++ "'"
  | .arr l => "[" ++ pyReprSeq l ++ "]"
  | .obj l => "\x7b" ++ pyReprFields l ++ "\x7d"

def pyReprSeq : List JValue → String
  | [] => ""
  | [v] => pyRepr v
  | v :: vs => pyRepr v ++ ", " ++ pyReprSeq vs

def pyReprFields : List (String × JValue) → String
  | [] => ""
  | [kv] => "'" ++ kv.1 ++ "': " ++ pyRepr kv.2
  | kv :: kvs => "'" ++ kv.1 ++ "': " ++ pyRepr kv.2 ++ ", " ++ pyReprFields kvs

end

/-- Python `str()` of a JSON-decoded value. -/
def pyStr : JValue → String
  | .str s => s
  | v => pyRepr v

/-- `_ensure_list`. -/
def ensure_list : Option JValue → List String
  | some (.arr l) => l.map pyStr
  | some (.str s) => [s]
  | _ => []

/-- `_extract_rule_keys` (default limit `MAX_DEPENDENCIES`). -/
def extract_rule_keys (rules : Option JValue) : List String :=
  match rules with
  | some (.obj kvs) => (kvs.map Prod.fst).take MAX_DEPENDENCIES
  | _ => []

/-- A `_summarize_list` result rendered back as the dictionary the
source stores inside config signals. -/
def listSummaryJ (ls : ListSummary) : JValue :=
  .obj [(("items"), .arr (ls.items.map .str)), (("truncated"), .bool ls.truncated)]

/-- `_extract_subset` over a decoded object. -/
def extract_subset (data : List (String × JValue)) (keys : List String) :
    List (String × JValue) :=
  keys.foldl
    (fun acc k =>
      match jGet data k with
      | some v => pyDictInsert acc k v
      | none => acc)
    []

/-- `_extract_subset(dict(parser.items(section)), keys)` for INI data,
whose values are plain strings. -/
def extract_subset_str (data : List (String × String)) (keys : List String) :
    List (String × JValue) :=
  keys.foldl
    (fun acc k =>
      match pyDictGet data k with
      | some v => pyDictInsert acc k (.str v)
      | none => acc)
    []

/-- `_extract_eslint_config`. -/
def extract_eslint_config (data : List (String × JValue)) :
    List (String × JValue) :=
  let e0 : List (String × JValue) := []
  let exts := ensure_list (jGet data ("extends"))
  let e1 := if exts ≠ [] then pyDictInsert e0 ("extends") (.arr (exts.map .str)) else e0
  let plugs := ensure_list (jGet data ("plugins"))
  let e2 := if plugs ≠ [] then pyDictInsert e1 ("plugins") (.arr (plugs.map .str)) else e1
  let e3 := match jGet data ("parser") with
            | some (.str p) => pyDictInsert e2 ("parser") (.str p)
            | _ => e2
  let rules := extract_rule_keys (jGet data ("rules"))
  if rules ≠ [] then pyDictInsert e3 ("rules") (listSummaryJ (summarize_list rules))
  else e3

/-- `_extract_stylelint_config`. -/
def extract_stylelint_config (data : List (String × JValue)) :
    List (String × JValue) :=
  let e0 : List (String × JValue) := []
  let exts := ensure_list (jGet data ("extends"))
  let e1 := if exts ≠ [] then pyDictInsert e0 ("extends") (.arr (exts.map .str)) else e0
  let plugs := ensure_list (jGet data ("plugins"))
  let e2 := if plugs ≠ [] then pyDictInsert e1 ("plugins") (.arr (plugs.map .str)) else e1
  let rules := extract_rule_keys (jGet data ("rules"))
  if rules ≠ [] then pyDictInsert e2 ("rules") (listSummaryJ (summarize_list rules))
  else e2

def prettierKeys : List String :=
  [("printWidth"), ("tabWidth"), ("useTabs"), ("semi"), ("singleQuote"),
   ("trailingComma"), ("bracketSpacing"), ("arrowParens")]

/-- `_extract_prettier_config`. -/
def extract_prettier_config (data : List (String × JValue)) :
    List (String × JValue) :=
  extract_subset data prettierKeys

def tsconfigCompilerKeys : List String :=
  [("strict"), ("noImplicitAny"), ("strictNullChecks"),
   ("noUncheckedIndexedAccess"), ("noImplicitReturns"),
   ("noFallthroughCasesInSwitch"), ("target"), ("module"), ("lib"), ("jsx")]

/-- `_extract_tsconfig`. -/
def extract_tsconfig (data : List (String × JValue)) : List (String × JValue) :=
  let e0 := match jGet data ("extends") with
            | some (.str s) => [(("extends"), JValue.str s)]
            | _ => []
  let e1 := match jGet data ("compilerOptions") with
            | some (.obj co) =>
              let ci := extract_subset co tsconfigCompilerKeys
              if !ci.isEmpty then pyDictInsert e0 ("compilerOptions") (.obj ci) else e0
            | _ => e0
  let e2 := match jGet data ("include") with
            | some (.arr l) => pyDictInsert e1 ("include") (.arr (l.take 25))
            | _ => e1
  match jGet data ("exclude") with
  | some (.arr l) => pyDictInsert e2 ("exclude") (.arr (l.take 25))
  | _ => e2

/-- `_extract_angular_config`. -/
def extract_angular_config (data : List (String × JValue)) :
    List (String × JValue) :=
  let e0 := match jGet data ("defaultProject") with
            | some (.str s) => [(("defaultProject"), JValue.str s)]
            | _ => []
  let e1 := match jGet data ("projects") with
            | some (.obj pr) =>
              pyDictInsert e0 ("projects") (.arr ((pr.map Prod.fst).take 10 |>.map .str))
            | _ => e0
  match jGet data ("schematics") with
  | some (.obj sc) =>
    pyDictInsert e1 ("schematics") (.arr ((sc.map Prod.fst).take 10 |>.map .str))
  | _ => e1

def editorconfigKeys : List String :=
  [("indent_style"), ("indent_size"), ("end_of_line"), ("charset"),
   ("trim_trailing_whitespace")]

/-- `_extract_editorconfig`: track the current bracketed section, and in
the wildcard sections keep the allow-listed `key = value` pairs. -/
def extract_editorconfig (text : String) : List (String × String) :=
  ((pySplitlines text).foldl
    (fun acc line =>
      let l := pyStrip line
      if l = "" ∨ pyStartsWith l ("#") ∨ pyStartsWith l (";") then acc
      else if pyStartsWith l ("[") ∧ pyEndsWith l ("]") then
        (some (pyStrip (String.mk (l.data.drop 1 |>.dropLast))), acc.2)
      else if l.data.contains '=' ∧
          (acc.1 = some ("*") ∨ acc.1 = some ("*.*") ∨ acc.1 = some ("**")) then
        let k := pyStrip (String.mk (l.data.takeWhile (fun c => !(c == '='))))
        let v := pyStrip (String.mk ((l.data.dropWhile (fun c => !(c == '='))).drop 1))
        if editorconfigKeys.contains k then (acc.1, pyDictInsert acc.2 k v)
        else acc
      else acc)
    ((none : Option String), ([] : List (String × String)))).2

/-! ### Framework/tool classifier -/

structure FrameworkMatch where
  name : String
  package : String
deriving DecidableEq, Repr

/-- The framework allow-list table of `_detect_frameworks_and_tools`,
in source order. -/
def framework_map : List (String × String) :=
  [(("react"), ("React")),
   (("next"), ("Next.js")),
   (("vue"), ("Vue")),
   (("nuxt"), ("Nuxt")),
   (("svelte"), ("Svelte")),
   (("@sveltejs/kit"), ("SvelteKit")),
   (("@angular/cli"), ("Angular")),
   (("@angular/core"), ("Angular")),
   (("@angular/platform-browser"), ("Angular")),
   (("qwik"), ("Qwik")),
   (("solid-js"), ("SolidJS")),
   (("lit"), ("Lit")),
   (("ember-source"), ("Ember")),
   (("gatsby"), ("Gatsby")),
   (("express"), ("Express")),
   (("fastify"), ("Fastify")),
   (("@nestjs/core"), ("NestJS")),
   (("koa"), ("Koa")),
   (("@hapi/hapi"), ("Hapi")),
   (("adonisjs"), ("AdonisJS")),
   (("@adonisjs/core"), ("AdonisJS")),
   (("@loopback/core"), ("LoopBack")),
   (("sails"), ("Sails")),
   (("@remix-run/react"), ("Remix")),
   (("astro"), ("Astro")),
   (("electron"), ("Electron")),
   (("django"), ("Django")),
   (("flask"), ("Flask")),
   (("fastapi"), ("FastAPI")),
   (("starlette"), ("Starlette")),
   (("tornado"), ("Tornado")),
   (("pyramid"), ("Pyramid")),
   (("falcon"), ("Falcon")),
   (("sanic"), ("Sanic")),
   (("quart"), ("Quart")),
   (("django-rest-framework"), ("Django REST Framework")),
   (("rails"), ("Ruby on Rails")),
   (("laravel/framework"), ("Laravel")),
   (("symfony/framework-bundle"), ("Symfony")),
   (("yiisoft/yii2"), ("Yii")),
   (("slim/slim"), ("Slim")),
   (("cakephp/cakephp"), ("CakePHP")),
   (("laminas/laminas-mvc"), ("Laminas")),
   (("codeigniter4/framework"), ("CodeIgniter")),
   (("spring-boot"), ("Spring Boot")),
   (("gin"), ("Gin")),
   (("github.com/gin-gonic/gin"), ("Gin")),
   (("echo"), ("Echo")),
   (("github.com/labstack/echo/v4"), ("Echo")),
   (("fiber"), ("Fiber")),
   (("github.com/gofiber/fiber/v2"), ("Fiber")),
   (("chi"), ("Chi")),
   (("github.com/go-chi/chi/v5"), ("Chi")),
   (("beego"), ("Beego")),
   (("github.com/beego/beego/v2"), ("Beego")),
   (("revel"), ("Revel")),
   (("github.com/revel/revel"), ("Revel")),
   (("actix-web"), ("Actix Web")),
   (("rocket"), ("Rocket"))]

/-- The tool allow-list table of `_detect_frameworks_and_tools`. -/
def tool_map : List (String × String) :=
  [(("eslint"), ("ESLint")),
   (("prettier"), ("Prettier")),
   (("stylelint"), ("Stylelint")),
   (("jest"), ("Jest")),
   (("vitest"), ("Vitest")),
   (("mocha"), ("Mocha")),
   (("pytest"), ("pytest")),
   (("ruff"), ("Ruff")),
   (("black"), ("Black")),
   (("mypy"), ("mypy")),
   (("pylint"), ("pylint")),
   (("flake8"), ("flake8")),
   (("isort"), ("isort")),
   (("cypress"), ("Cypress")),
   (("playwright"), ("Playwright")),
   (("storybook"), ("Storybook"))]

/-- `_detect_items`. -/
def detect_items (names : List String) (mapping : List (String × String)) :
    List FrameworkMatch :=
  mapping.filterMap (fun kv =>
    if names.contains kv.1 then some ⟨kv.2, kv.1⟩ else none)

/-- `_normalize_dep_names` (the lower-cased name set, as a list used only
for membership tests). -/
def normalize_dep_names (deps : List (String × String)) : List String :=
  deps.map (fun kv => asciiLower kv.1)

/-- `_detect_frameworks_and_tools`. -/
def detect_frameworks_and_tools (dep_names : List String) :
    List FrameworkMatch × List String :=
  (detect_items dep_names framework_map,
   tool_map.filterMap (fun kv =>
     if dep_names.contains kv.1 then some kv.2 else none))

/-! ### Path confinement (`_safe_repo_path`, `read_file`,
`read_file_at_ref`)

Paths are modelled as lists of components of an absolute POSIX path;
`resolve()` is lexical normalization (the model file system has no
symbolic links). -/

/-- Worker splitting on `/` (keeping empty components, which lexical
resolution later discards). -/
def splitSlashAux : List Char → List Char → List (List Char)
  | [], cur => [cur.reverse]
  | c :: rest, cur =>
    if c = '/' then cur.reverse :: splitSlashAux rest []
    else splitSlashAux rest (c :: cur)

/-- Split a path string on `/` into raw components. -/
def splitSlash (s : String) : List String :=
  (splitSlashAux s.data []).map String.mk

/-- `root / path_str` of `pathlib`: an absolute right operand replaces
the left one. -/
def pathJoinSegs (root : List String) (pathStr : String) : List String :=
  if pyStartsWith pathStr ("/") then splitSlash pathStr
  else root ++ splitSlash pathStr

/-- Lexical `Path.resolve()`: drop empty and `.` components, let `..`
remove the previous component (at the file-system root it stays put). -/
def lexResolve (segs : List String) : List String :=
  segs.foldl
    (fun acc seg =>
      if seg = "" ∨ seg = "." then acc
      else if seg = ".." then acc.dropLast
      else acc ++ [seg])
    []

/-- `Path.parents`: every proper ancestor of the path. -/
def pyParents (p : List String) : List (List String) :=
  (List.range p.length).map (fun i => p.take i)

/-- `_safe_repo_path`: join against the root, resolve, and reject any
result of which the root is neither an ancestor nor the path itself. -/
def safe_repo_path (root : List String) (path_str : String) :
    Except String (List String) :=
  let p := lexResolve (pathJoinSegs root path_str)
  if (pyParents p).contains root ∨ p = root then .ok p
  else .error ("Path is outside repo root: " ++ path_str)

/-- Nodes of the model file system used by `read_file`. -/
inductive FsNode : Type
  | file (bytes : List Nat)
  | dir

/-- The two exception kinds `read_file` / `read_file_at_ref` raise. -/
inductive RepoReadError : Type
  | valueError (msg : String)
  | fileNotFound (msg : String)
deriving DecidableEq

/-- `read_file`: confine the path, then require an existing regular
file, then read with the byte cap. -/
def read_file (tree : List String → Option FsNode) (root : List String)
    (path : String) (max_bytes : Nat) : Except RepoReadError (String × Bool) :=
  match safe_repo_path root path with
  | .error e => .error (.valueError e)
  | .ok p =>
    match tree p with
    | some (.file bytes) => .ok (read_text bytes max_bytes)
    | _ => .error (.fileNotFound ("File not found: " ++ path))

/-- `read_file_at_ref`: the path is confined exactly as in `read_file`
(the resolved value is discarded); the content then comes from the
version-control collaborator, abstracted as a total function, and is
truncated by character count. -/
def read_file_at_ref (gitShow : String → String → String)
    (root : List String) (path ref : String) (max_bytes : Nat) :
    Except RepoReadError (String × Bool) :=
  match safe_repo_path root path with
  | .error e => .error (.valueError e)
  | .ok _ =>
    let content := gitShow ref path
    if max_bytes < content.data.length then
      (.ok (String.mk (content.data.take max_bytes), true))
    else .ok (content, false)

/-! ### The aggregation model (`init_repo_context`)

The repository is a map from root-relative file names to byte contents
plus the (ordered) listing of the workflows directory.  The standard
library decoders are abstract parameters returning a structured value or
the error message the source records. -/

/-- Abstract standard-library decoders (`json.loads`, `tomllib.loads`,
and `configparser` reading the raw file, strict-decoding included). -/
structure Parsers where
  jsonLoads : String → Except String JValue
  tomlLoads : String → Except String JValue
  iniRead : List Nat → Except String (List (String × List (String × String)))

/-- The repository contents seen by one aggregation call. -/
structure RepoFS where
  root : String
  files : String → Option (List Nat)
  workflowFiles : Option (List String)

/-- `_read_json` (and, with the TOML decoder, `_read_toml`). -/
def read_json (load : String → Except String JValue) (bytes : List Nat)
    (max_bytes : Nat) : Except String JValue × Bool :=
  let r := read_text bytes max_bytes
  (load r.1, r.2)

def iniHasSection (doc : List (String × List (String × String)))
    (s : String) : Bool :=
  (doc.map Prod.fst).contains s

def iniItems (doc : List (String × List (String × String)))
    (s : String) : List (String × String) :=
  (pyDictGet doc s).getD []

/-- The `container` sub-dictionary of the context. -/
structure ContainerInfo where
  dockerfile : Option String
  compose : Option String
  composeServices : Option (List String)
deriving DecidableEq, Repr

/-- The accumulator state threaded through the extraction blocks, one
field per accumulator collection of `init_repo_context`. -/
structure CtxState where
  languages : List String
  frameworks : List FrameworkMatch
  tools : List String
  config : List (String × JValue)
  packageManagers : List String
  lockfiles : List String
  buildSystems : List String
  runtimeVersions : List (String × String)
  dependencies : List (String × DepEntry)
  scripts : List (String × String)
  packageManagerField : Option String
  goInfo : Option (List (String × String))
  mavenInfo : Option (List (String × String))
  cargoPackage : Option (List (String × Option JValue))
  gradlePluginEntries : List (String × List String)
  ciCd : List String
  container : ContainerInfo

def initState : CtxState :=
  ⟨[], [], [], [], [], [], [], [], [], [], none, none, none, none, [], [],
   ⟨none, none, none⟩⟩

/-- One extraction block's result: the updated accumulators plus the
parse-error and truncated-file entries it appended. -/
structure BlockOut where
  st : CtxState
  pe : List (String × String)
  tf : List String

/-- The fixed catalog of root file names checked for existence
(`root_files` in the source, in order). -/
def rootFilesCatalog : List String :=
  [("package.json"), ("pnpm-lock.yaml"), ("yarn.lock"), ("package-lock.json"),
   ("pnpm-workspace.yaml"), ("tsconfig.json"), ("tsconfig.base.json"),
   ("tsconfig.app.json"), ("tsconfig.spec.json"), ("angular.json"),
   (".eslintrc"), (".eslintrc.json"), (".eslintrc.yaml"), (".eslintrc.yml"),
   (".eslintrc.js"), (".eslintrc.cjs"), (".eslintignore"), (".prettierrc"),
   (".prettierrc.json"), (".prettierrc.yaml"), (".prettierrc.yml"),
   ("prettier.config.js"), ("prettier.config.cjs"), (".prettierignore"),
   (".stylelintrc"), (".stylelintrc.json"), (".stylelintrc.yaml"),
   (".stylelintrc.yml"), (".stylelintignore"), (".editorconfig"),
   (".babelrc"), ("babel.config.json"), (".swcrc"), ("jest.config.js"),
   ("vitest.config.ts"), ("vitest.config.js"), ("cypress.config.ts"),
   ("playwright.config.ts"), ("pyproject.toml"), ("requirements.txt"),
   ("requirements-dev.txt"), ("ruff.toml"), ("mypy.ini"), (".pylintrc"),
   ("Pipfile"), ("Pipfile.lock"), ("poetry.lock"), ("uv.lock"),
   ("setup.cfg"), ("setup.py"), ("tox.ini"), ("pytest.ini"), ("go.mod"),
   ("go.sum"), ("Cargo.toml"), ("Cargo.lock"), ("pom.xml"),
   ("build.gradle"), ("build.gradle.kts"), ("settings.gradle"),
   ("settings.gradle.kts"), ("composer.json"), ("composer.lock"),
   ("Gemfile"), ("Gemfile.lock"), (".nvmrc"), (".node-version"),
   (".python-version"), (".ruby-version"), (".tool-versions"),
   ("Dockerfile"), ("docker-compose.yml"), ("docker-compose.yaml"),
   ("Makefile"), (".gitlab-ci.yml"), ("azure-pipelines.yml"),
   (".circleci/config.yml")]

/-- `_scan_root_files`. -/
def scan_root_files (fs : RepoFS) (names : List String) : List String :=
  names.filter (fun name => (fs.files name).isSome)

/-- The dictionary-shaped `package.json` body (source lines 795–830). -/
def packageJsonFields (fields : List (String × JValue)) (st : CtxState) :
    CtxState :=
  let st := { st with
    languages := setAdd st.languages ("JavaScript/TypeScript"),
    packageManagers := setAdd st.packageManagers ("npm") }
  let st := match jGet fields ("packageManager") with
            | some (.str pm) => { st with packageManagerField := some pm }
            | _ => st
  let deps := jGetOrObj fields ("dependencies")
  let devDeps := jGetOrObj fields ("devDependencies")
  let peerDeps := jGetOrObj fields ("peerDependencies")
  let allDeps := [deps, devDeps, peerDeps].foldl
    (fun acc src =>
      match src with
      | .obj kvs => pyDictUpdate acc (kvs.map (fun kv => (kv.1, pyStr kv.2)))
      | _ => acc)
    []
  let ft := detect_frameworks_and_tools (normalize_dep_names allDeps)
  let st := { st with
    frameworks := st.frameworks ++ ft.1,
    tools := setAddAll st.tools ft.2,
    dependencies := (pyDictInsert st.dependencies ("package.json")
      (DepEntry.depsMap (summarize_dependencies allDeps))) }
  let st := match jGet fields ("engines") with
            | some (.obj eng) =>
              { st with runtimeVersions := (eng.foldl
                  (fun acc kv =>
                    match kv.2 with
                    | .str v => pyDictInsert acc kv.1 v
                    | _ => acc)
                  st.runtimeVersions) }
            | _ => st
  let st := match jGet fields ("scripts") with
            | some (.obj sc) =>
              let items := if 50 < sc.length then sc.take 50 else sc
              { st with scripts := (pyDictUpdate st.scripts
                  (items.map (fun kv => (kv.1, pyStr kv.2)))) }
            | _ => st
  let st := match jGet fields ("eslintConfig") with
            | some (.obj ec) =>
              { st with config := (pyDictInsert st.config ("eslint")
                  (.obj (extract_eslint_config ec))) }
            | _ => st
  let st := match jGet fields ("prettier") with
            | some (.obj pc) =>
              { st with config := (pyDictInsert st.config ("prettier")
                  (.obj (extract_prettier_config pc))) }
            | _ => st
  let st := match jGet fields ("stylelint") with
            | some (.obj slc) =>
              { st with config := (pyDictInsert st.config ("stylelint")
                  (.obj (extract_stylelint_config slc))) }
            | _ => st
  st

/-- The `package.json` block (source lines 789–832). -/
def processPackageJson (P : Parsers) (fs : RepoFS) (max_bytes : Nat)
    (st : CtxState) : BlockOut :=
  match fs.files ("package.json") with
  | none => ⟨st, [], []⟩
  | some bytes =>
    let rj := read_json P.jsonLoads bytes max_bytes
    let tf := if rj.2 then [("package.json")] else []
    match rj.1 with
    | .error e => ⟨st, [(("package.json"), e)], tf⟩
    | .ok (.obj fields) => ⟨packageJsonFields fields st, [], tf⟩
    | .ok _ => ⟨st, [], tf⟩

def tsconfigNames : List String :=
  [("tsconfig.json"), ("tsconfig.base.json"), ("tsconfig.app.json"),
   ("tsconfig.spec.json")]

/-- One iteration of the tsconfig loop, accumulating
`(tsconfig_info, parse errors, truncated files)`. -/
def tsconfigStep (P : Parsers) (fs : RepoFS) (max_bytes : Nat)
    (acc : List (String × JValue) × List (String × String) × List String)
    (name : String) :
    List (String × JValue) × List (String × String) × List String :=
  match fs.files name with
  | none => acc
  | some bytes =>
    let rj := read_json P.jsonLoads bytes max_bytes
    let tf := acc.2.2 ++ (if rj.2 then [name] else [])
    match rj.1 with
    | .error e => (acc.1, acc.2.1 ++ [(name, e)], tf)
    | .ok (.obj fields) =>
      let extracted := extract_tsconfig fields
      if !extracted.isEmpty then
        (pyDictInsert acc.1 name (.obj extracted), acc.2.1, tf)
      else (acc.1, acc.2.1, tf)
    | .ok _ => (acc.1, acc.2.1, tf)

/-- The tsconfig-family block (source lines 834–848). -/
def processTsconfig (P : Parsers) (fs : RepoFS) (max_bytes : Nat)
    (st : CtxState) : BlockOut :=
  let r := tsconfigNames.foldl (tsconfigStep P fs max_bytes) ([], [], [])
  let st := if !r.1.isEmpty then
              { st with config := pyDictInsert st.config ("tsconfig") (.obj r.1) }
            else st
  ⟨st, r.2.1, r.2.2⟩

/-- The `angular.json` block (source lines 850–859). -/
def processAngular (P : Parsers) (fs : RepoFS) (max_bytes : Nat)
    (st : CtxState) : BlockOut :=
  match fs.files ("angular.json") with
  | none => ⟨st, [], []⟩
  | some bytes =>
    let rj := read_json P.jsonLoads bytes max_bytes
    let tf := if rj.2 then [("angular.json")] else []
    match rj.1 with
    | .error e => ⟨st, [(("angular.json"), e)], tf⟩
    | .ok (.obj fields) =>
      let info := extract_angular_config fields
      if !info.isEmpty then
        ⟨{ st with config := pyDictInsert st.config ("angular") (.obj info) },
         [], tf⟩
      else ⟨st, [], tf⟩
    | .ok _ => ⟨st, [], tf⟩

/-- A `for name in (…): if path.exists(): …; break` block over JSON
config candidates: only the first existing file is processed.  The
`extract` argument builds the config entry stored under `key` when the
extraction is non-empty. -/
def firstJsonConfigBlock (P : Parsers) (fs : RepoFS) (max_bytes : Nat)
    (names : List String) (key : String)
    (extract : List (String × JValue) → List (String × JValue))
    (st : CtxState) : BlockOut :=
  match names.find? (fun n => (fs.files n).isSome) with
  | none => ⟨st, [], []⟩
  | some name =>
    match fs.files name with
    | none => ⟨st, [], []⟩
    | some bytes =>
      let rj := read_json P.jsonLoads bytes max_bytes
      let tf := if rj.2 then [name] else []
      match rj.1 with
      | .error e => ⟨st, [(name, e)], tf⟩
      | .ok (.obj fields) =>
        let extracted := extract fields
        if !extracted.isEmpty then
          ⟨{ st with config := pyDictInsert st.config key (.obj extracted) },
           [], tf⟩
        else ⟨st, [], tf⟩
      | .ok _ => ⟨st, [], tf⟩

/-- The `.eslintrc`/`.eslintrc.json` block (source lines 861–873). -/
def processEslintrc (P : Parsers) (fs : RepoFS) (max_bytes : Nat)
    (st : CtxState) : BlockOut :=
  firstJsonConfigBlock P fs max_bytes [(".eslintrc"), (".eslintrc.json")]
    ("eslint") extract_eslint_config st

/-- The `.prettierrc`/`.prettierrc.json` block (source lines 875–887). -/
def processPrettierrc (P : Parsers) (fs : RepoFS) (max_bytes : Nat)
    (st : CtxState) : BlockOut :=
  firstJsonConfigBlock P fs max_bytes [(".prettierrc"), (".prettierrc.json")]
    ("prettier") extract_prettier_config st

/-- The `.stylelintrc`/`.stylelintrc.json` block (source lines 889–901). -/
def processStylelintrc (P : Parsers) (fs : RepoFS) (max_bytes : Nat)
    (st : CtxState) : BlockOut :=
  firstJsonConfigBlock P fs max_bytes [(".stylelintrc"), (".stylelintrc.json")]
    ("stylelint") extract_stylelint_config st

/-- The `.babelrc`/`babel.config.json` block (source lines 903–913): the
subset is stored unconditionally once the data is a dictionary. -/
def processBabel (P : Parsers) (fs : RepoFS) (max_bytes : Nat)
    (st : CtxState) : BlockOut :=
  match [(".babelrc"), ("babel.config.json")].find?
      (fun n => (fs.files n).isSome) with
  | none => ⟨st, [], []⟩
  | some name =>
    match fs.files name with
    | none => ⟨st, [], []⟩
    | some bytes =>
      let rj := read_json P.jsonLoads bytes max_bytes
      let tf := if rj.2 then [name] else []
      match rj.1 with
      | .error e => ⟨st, [(name, e)], tf⟩
      | .ok (.obj fields) =>
        ⟨{ st with config := (pyDictInsert st.config ("babel")
            (.obj (extract_subset fields [(("presets")), (("plugins"))]))) },
         [], tf⟩
      | .ok _ => ⟨st, [], tf⟩

/-- The `.swcrc` block (source lines 915–924). -/
def processSwcrc (P : Parsers) (fs : RepoFS) (max_bytes : Nat)
    (st : CtxState) : BlockOut :=
  match fs.files (".swcrc") with
  | none => ⟨st, [], []⟩
  | some bytes =>
    let rj := read_json P.jsonLoads bytes max_bytes
    let tf := if rj.2 then [(".swcrc")] else []
    match rj.1 with
    | .error e => ⟨st, [((".swcrc"), e)], tf⟩
    | .ok (.obj fields) =>
      ⟨{ st with config := (pyDictInsert st.config ("swc")
          (.obj (extract_subset fields
            [(("jsc")), (("module")), (("sourceMaps")), (("minify")), (("env"))]))) },
       [], tf⟩
    | .ok _ => ⟨st, [], tf⟩

/-- The `.editorconfig` block (source lines 926–932). -/
def processEditorconfig (fs : RepoFS) (max_bytes : Nat)
    (st : CtxState) : BlockOut :=
  match fs.files (".editorconfig") with
  | none => ⟨st, [], []⟩
  | some bytes =>
    let r := read_text bytes max_bytes
    let tf := if r.2 then [(".editorconfig")] else []
    let info := extract_editorconfig r.1
    if !info.isEmpty then
      ⟨{ st with config := (pyDictInsert st.config ("editorconfig")
          (.obj (info.map (fun kv => (kv.1, JValue.str kv.2))))) },
       [], tf⟩
    else ⟨st, [], tf⟩

def testConfigNames : List String :=
  [("jest.config.js"), ("vitest.config.ts"), ("vitest.config.js"),
   ("cypress.config.ts"), ("playwright.config.ts")]

/-- One iteration of the test-config presence loop: `setdefault` an empty
list under `test_configs`, then append the file name when the stored
value is a list. -/
def testConfigStep (fs : RepoFS) (cfg : List (String × JValue))
    (name : String) : List (String × JValue) :=
  if (fs.files name).isSome then
    let cfg1 := if (pyDictGet cfg ("test_configs")).isNone then
                  pyDictInsert cfg ("test_configs") (.arr [])
                else cfg
    match pyDictGet cfg1 ("test_configs") with
    | some (.arr l) =>
      pyDictInsert cfg1 ("test_configs") (.arr (l ++ [.str name]))
    | _ => cfg1
  else cfg

/-- The test-runner config presence block (source lines 934–944). -/
def processTestConfigs (fs : RepoFS) (st : CtxState) : BlockOut :=
  ⟨{ st with config := testConfigNames.foldl (testConfigStep fs) st.config },
   [], []⟩

/-- The lockfile block (source lines 946–954). -/
def processLockfiles (fs : RepoFS) (st : CtxState) : BlockOut :=
  let st := if (fs.files ("pnpm-lock.yaml")).isSome then
              { st with packageManagers := setAdd st.packageManagers ("pnpm"),
                        lockfiles := setAdd st.lockfiles ("pnpm-lock.yaml") }
            else st
  let st := if (fs.files ("yarn.lock")).isSome then
              { st with packageManagers := setAdd st.packageManagers ("yarn"),
                        lockfiles := setAdd st.lockfiles ("yarn.lock") }
            else st
  let st := if (fs.files ("package-lock.json")).isSome then
              { st with packageManagers := setAdd st.packageManagers ("npm"),
                        lockfiles := setAdd st.lockfiles ("package-lock.json") }
            else st
  ⟨st, [], []⟩

def ruffPyprojectKeys : List String :=
  [("select"), ("ignore"), ("extend-select"), ("extend-ignore"),
   ("line-length"), ("target-version")]

def blackKeys : List String :=
  [("line-length"), ("target-version"), ("skip-string-normalization")]

def mypyKeys : List String :=
  [("python_version"), ("strict"), ("ignore_missing_imports")]

def pytestKeys : List String := [("addopts"), ("testpaths"), ("pythonpath")]

/-- The dictionary-shaped `pyproject.toml` body (source lines 926–1000). -/
def pyprojectFields (fields : List (String × JValue)) (st : CtxState) :
    CtxState :=
  let st := { st with languages := setAdd st.languages ("Python") }
  let st := match jGetOrObj fields ("project") with
            | .obj project =>
              let st := match jGetOrArr project ("dependencies") with
                        | .arr deps =>
                          { st with dependencies := (pyDictInsert st.dependencies
                              ("pyproject.toml")
                              (DepEntry.itemList (summarize_list (deps.map pyStr)))) }
                        | _ => st
              match jGetOrObj project ("optional-dependencies") with
              | .obj optional =>
                let optionalDeps := optional.foldl
                  (fun acc kv =>
                    match kv.2 with
                    | .arr group => acc ++ group.map pyStr
                    | _ => acc)
                  []
                if !optionalDeps.isEmpty then
                  { st with dependencies := (pyDictInsert st.dependencies
                      ("pyproject.toml(optional)")
                      (DepEntry.itemList (summarize_list optionalDeps))) }
                else st
              | _ => st
            | _ => st
  match jGetOrObj fields ("tool") with
  | .obj toolSection =>
    let st := match jGetOrObj toolSection ("poetry") with
              | .obj poetry =>
                let st := { st with
                  packageManagers := setAdd st.packageManagers ("poetry") }
                let allDeps0 : List (String × String) :=
                  match jGetOrObj poetry ("dependencies") with
                  | .obj deps =>
                    pyDictUpdate [] (deps.map (fun kv => (kv.1, pyStr kv.2)))
                  | _ => []
                let allDeps :=
                  match jGetOrObj poetry ("group") with
                  | .obj dev =>
                    dev.foldl
                      (fun acc kv =>
                        match kv.2 with
                        | .obj group =>
                          match jGetOrObj group ("dependencies") with
                          | .obj groupDeps =>
                            pyDictUpdate acc
                              (groupDeps.map (fun gd => (gd.1, pyStr gd.2)))
                          | _ => acc
                        | _ => acc)
                      allDeps0
                  | _ => allDeps0
                let ft := detect_frameworks_and_tools (normalize_dep_names allDeps)
                let st := { st with
                  frameworks := st.frameworks ++ ft.1,
                  tools := setAddAll st.tools ft.2 }
                if !allDeps.isEmpty then
                  { st with dependencies := (pyDictInsert st.dependencies
                      ("pyproject.toml(poetry)")
                      (DepEntry.depsMap (summarize_dependencies allDeps))) }
                else st
              | _ => st
    let st := match jGet toolSection ("ruff") with
              | some (.obj ruffCfg) =>
                { st with config := (pyDictInsert st.config ("ruff")
                    (.obj (extract_subset ruffCfg ruffPyprojectKeys))) }
              | _ => st
    let st := match jGet toolSection ("black") with
              | some (.obj blackCfg) =>
                { st with config := (pyDictInsert st.config ("black")
                    (.obj (extract_subset blackCfg blackKeys))) }
              | _ => st
    let st := match jGet toolSection ("mypy") with
              | some (.obj mypyCfg) =>
                { st with config := (pyDictInsert st.config ("mypy")
                    (.obj (extract_subset mypyCfg mypyKeys))) }
              | _ => st
    let st := match jGet toolSection ("pytest") with
              | some (.obj pytestCfg) =>
                match jGet pytestCfg ("ini_options") with
                | some (.obj iniOpts) =>
                  { st with config := (pyDictInsert st.config ("pytest")
                      (.obj (extract_subset iniOpts pytestKeys))) }
                | _ => st
              | _ => st
    st
  | _ => st

/-- The `pyproject.toml` block (source lines 956–1030). -/
def processPyproject (P : Parsers) (fs : RepoFS) (max_bytes : Nat)
    (st : CtxState) : BlockOut :=
  match fs.files ("pyproject.toml") with
  | none => ⟨st, [], []⟩
  | some bytes =>
    let rj := read_json P.tomlLoads bytes max_bytes
    let tf := if rj.2 then [("pyproject.toml")] else []
    match rj.1 with
    | .error e => ⟨st, [(("pyproject.toml"), e)], tf⟩
    | .ok (.obj fields) => ⟨pyprojectFields fields st, [], tf⟩
    | .ok _ => ⟨st, [], tf⟩

def requirementsNames : List String :=
  [("requirements.txt"), ("requirements-dev.txt")]

/-- One iteration of the requirements loop (source lines 1032–1043). -/
def requirementsStep (fs : RepoFS) (max_bytes : Nat) (out : BlockOut)
    (req_name : String) : BlockOut :=
  match fs.files req_name with
  | none => out
  | some bytes =>
    let r := read_text bytes max_bytes
    let tf := out.tf ++ (if r.2 then [req_name] else [])
    let reqs := extract_requirements r.1
    let st := { out.st with dependencies := (pyDictInsert out.st.dependencies
        req_name (DepEntry.itemList (summarize_list reqs))) }
    let depNames := (reqs.filter (fun r => r ≠ "")).map
      (fun r => asciiLower (req_name_of r))
    let ft := detect_frameworks_and_tools depNames
    let st := { st with
      frameworks := st.frameworks ++ ft.1,
      tools := setAddAll st.tools ft.2,
      languages := setAdd st.languages ("Python") }
    ⟨st, out.pe, tf⟩

def processRequirements (fs : RepoFS) (max_bytes : Nat)
    (st : CtxState) : BlockOut :=
  requirementsNames.foldl (requirementsStep fs max_bytes) ⟨st, [], []⟩

/-- The `Pipfile` block (source lines 1045–1047). -/
def processPipfile (fs : RepoFS) (st : CtxState) : BlockOut :=
  if (fs.files ("Pipfile")).isSome then
    ⟨{ st with packageManagers := setAdd st.packageManagers ("pipenv"),
               languages := setAdd st.languages ("Python") }, [], []⟩
  else ⟨st, [], []⟩

def iniNames : List String :=
  [("setup.cfg"), ("tox.ini"), ("pytest.ini"), ("mypy.ini")]

def flake8Keys : List String :=
  [("max-line-length"), ("ignore"), ("extend-ignore")]

/-- One iteration of the INI loop (source lines 1049–1073). -/
def iniStep (P : Parsers) (fs : RepoFS) (out : BlockOut)
    (ini_name : String) : BlockOut :=
  match fs.files ini_name with
  | none => out
  | some bytes =>
    match P.iniRead bytes with
    | .error e => ⟨out.st, out.pe ++ [(ini_name, e)], out.tf⟩
    | .ok doc =>
      let st := out.st
      let st := if iniHasSection doc ("flake8") then
          { st with config := (pyDictInsert st.config ("flake8")
              (.obj (extract_subset_str (iniItems doc ("flake8")) flake8Keys))) }
        else st
      let st := if iniHasSection doc ("mypy") then
          { st with config := (pyDictInsert st.config ("mypy")
              (.obj (extract_subset_str (iniItems doc ("mypy")) mypyKeys))) }
        else st
      let st := if iniHasSection doc ("tool:pytest") then
          { st with config := (pyDictInsert st.config ("pytest")
              (.obj (extract_subset_str (iniItems doc ("tool:pytest")) pytestKeys))) }
        else st
      ⟨st, out.pe, out.tf⟩

def processIniFiles (P : Parsers) (fs : RepoFS) (st : CtxState) : BlockOut :=
  iniNames.foldl (iniStep P fs) ⟨st, [], []⟩

def ruffTomlLintKeys : List String :=
  [("select"), ("ignore"), ("extend-select"), ("extend-ignore"),
   ("per-file-ignores")]

def ruffTomlFormatKeys : List String :=
  [("quote-style"), ("indent-style"), ("line-ending")]

/-- The `ruff.toml` block (source lines 1075–1093). -/
def processRuffToml (P : Parsers) (fs : RepoFS) (max_bytes : Nat)
    (st : CtxState) : BlockOut :=
  match fs.files ("ruff.toml") with
  | none => ⟨st, [], []⟩
  | some bytes =>
    let rj := read_json P.tomlLoads bytes max_bytes
    let tf := if rj.2 then [("ruff.toml")] else []
    match rj.1 with
    | .error e => ⟨st, [(("ruff.toml"), e)], tf⟩
    | .ok (.obj fields) =>
      let st := match jGet fields ("lint") with
                | some (.obj lintCfg) =>
                  { st with config := (pyDictInsert st.config ("ruff")
                      (.obj (extract_subset lintCfg ruffTomlLintKeys))) }
                | _ => st
      let st := match jGet fields ("format") with
                | some (.obj formatCfg) =>
                  { st with config := (pyDictInsert st.config ("ruff_format")
                      (.obj (extract_subset formatCfg ruffTomlFormatKeys))) }
                | _ => st
      ⟨st, [], tf⟩
    | .ok _ => ⟨st, [], tf⟩

/-- The `go.mod` block (source lines 1095–1109). -/
def processGoMod (fs : RepoFS) (max_bytes : Nat) (st : CtxState) : BlockOut :=
  match fs.files ("go.mod") with
  | none => ⟨st, [], []⟩
  | some bytes =>
    let r := read_text bytes max_bytes
    let tf := if r.2 then [("go.mod")] else []
    let st := { st with languages := setAdd st.languages ("Go"),
                        buildSystems := setAdd st.buildSystems ("Go modules") }
    let info := go_mod_info r.1
    if !info.isEmpty then ⟨{ st with goInfo := some info }, [], tf⟩
    else ⟨st, [], tf⟩

/-- The dictionary-shaped `Cargo.toml` body (source lines 1105–1134). -/
def cargoTomlFields (fields : List (String × JValue)) (st : CtxState) :
    CtxState :=
  let st := { st with languages := setAdd st.languages ("Rust"),
                      buildSystems := setAdd st.buildSystems ("Cargo") }
  let st := match jGetOrObj fields ("package") with
            | .obj package =>
              { st with cargoPackage := (some
                  [(("name"), jGet package ("name")),
                   (("version"), jGet package ("version"))]) }
            | _ => st
  let st := match jGetOrObj fields ("dependencies") with
            | .obj deps =>
              let depMap := deps.map (fun kv => (kv.1, pyStr kv.2))
              let st := { st with dependencies := (pyDictInsert st.dependencies
                  ("Cargo.toml") (DepEntry.depsMap (summarize_dependencies depMap))) }
              let ft := detect_frameworks_and_tools
                (deps.map (fun kv => asciiLower kv.1))
              { st with frameworks := st.frameworks ++ ft.1,
                        tools := setAddAll st.tools ft.2 }
            | _ => st
  st

/-- The `Cargo.toml` block (source lines 1111–1134). -/
def processCargoToml (P : Parsers) (fs : RepoFS) (max_bytes : Nat)
    (st : CtxState) : BlockOut :=
  match fs.files ("Cargo.toml") with
  | none => ⟨st, [], []⟩
  | some bytes =>
    let rj := read_json P.tomlLoads bytes max_bytes
    let tf := if rj.2 then [("Cargo.toml")] else []
    match rj.1 with
    | .error e => ⟨st, [(("Cargo.toml"), e)], tf⟩
    | .ok (.obj fields) => ⟨cargoTomlFields fields st, [], tf⟩
    | .ok _ => ⟨st, [], tf⟩

/-- The `pom.xml` block (source lines 1136–1146). -/
def processPomXml (fs : RepoFS) (max_bytes : Nat) (st : CtxState) : BlockOut :=
  match fs.files ("pom.xml") with
  | none => ⟨st, [], []⟩
  | some bytes =>
    let r := read_text bytes max_bytes
    let tf := if r.2 then [("pom.xml")] else []
    let st := { st with languages := setAdd st.languages ("Java"),
                        buildSystems := setAdd st.buildSystems ("Maven") }
    let info := extract_pom_info r.1
    let st := if !info.isEmpty then { st with mavenInfo := some info } else st
    let st := if pyContains r.1 ("spring-boot") ∨
        pyContains r.1 ("org.springframework.boot") then
        { st with frameworks := (st.frameworks ++
            [⟨("Spring Boot"), ("spring-boot")⟩]) }
      else st
    ⟨st, [], tf⟩

def gradleNames : List String := [("build.gradle"), ("build.gradle.kts")]

/-- One iteration of the Gradle loop (source lines 1148–1160). -/
def gradleStep (fs : RepoFS) (max_bytes : Nat) (out : BlockOut)
    (gradle_file : String) : BlockOut :=
  match fs.files gradle_file with
  | none => out
  | some bytes =>
    let r := read_text bytes max_bytes
    let tf := out.tf ++ (if r.2 then [gradle_file] else [])
    let st := { out.st with
      languages := setAdd out.st.languages ("Java/Kotlin"),
      buildSystems := setAdd out.st.buildSystems ("Gradle") }
    let plugins := extract_gradle_plugins r.1
    let st := if !plugins.isEmpty then
        { st with gradlePluginEntries := (pyDictInsert st.gradlePluginEntries
            (gradle_file ++ (".plugins")) plugins) }
      else st
    let st := if pyContains r.1 ("org.springframework.boot") ∨
        pyContains r.1 ("spring-boot") then
        { st with frameworks := (st.frameworks ++
            [⟨("Spring Boot"), ("spring-boot")⟩]) }
      else st
    ⟨st, out.pe, tf⟩

def processGradle (fs : RepoFS) (max_bytes : Nat) (st : CtxState) : BlockOut :=
  gradleNames.foldl (gradleStep fs max_bytes) ⟨st, [], []⟩

/-- The dictionary-shaped `composer.json` body (source lines 1168–1176). -/
def composerJsonFields (fields : List (String × JValue)) (st : CtxState) :
    CtxState :=
  let st := { st with languages := setAdd st.languages ("PHP") }
  let st := match jGetOrObj fields ("require") with
            | .obj deps =>
              let depMap := deps.map (fun kv => (kv.1, pyStr kv.2))
              let st := { st with dependencies := (pyDictInsert st.dependencies
                  ("composer.json")
                  (DepEntry.depsMap (summarize_dependencies depMap))) }
              let ft := detect_frameworks_and_tools
                (deps.map (fun kv => asciiLower kv.1))
              { st with frameworks := st.frameworks ++ ft.1,
                        tools := setAddAll st.tools ft.2 }
            | _ => st
  st

/-- The `composer.json` block (source lines 1162–1178). -/
def processComposerJson (P : Parsers) (fs : RepoFS) (max_bytes : Nat)
    (st : CtxState) : BlockOut :=
  match fs.files ("composer.json") with
  | none => ⟨st, [], []⟩
  | some bytes =>
    let rj := read_json P.jsonLoads bytes max_bytes
    let tf := if rj.2 then [("composer.json")] else []
    match rj.1 with
    | .error e => ⟨st, [(("composer.json"), e)], tf⟩
    | .ok (.obj fields) => ⟨composerJsonFields fields st, [], tf⟩
    | .ok _ => ⟨st, [], tf⟩

/-- The `Gemfile` block (source lines 1180–1194). -/
def processGemfile (fs : RepoFS) (max_bytes : Nat) (st : CtxState) : BlockOut :=
  match fs.files ("Gemfile") with
  | none => ⟨st, [], []⟩
  | some bytes =>
    let r := read_text bytes max_bytes
    let tf := if r.2 then [("Gemfile")] else []
    let st := { st with languages := setAdd st.languages ("Ruby") }
    let gems := extract_ruby_gems r.1
    let st := if !gems.isEmpty then
        let st := { st with dependencies := (pyDictInsert st.dependencies
            ("Gemfile") (DepEntry.itemList (summarize_list gems))) }
        let ft := detect_frameworks_and_tools (gems.map asciiLower)
        { st with frameworks := st.frameworks ++ ft.1,
                  tools := setAddAll st.tools ft.2 }
      else st
    let st := match extract_ruby_version r.1 with
              | some v =>
                if v ≠ "" then
                  { st with runtimeVersions := (pyDictInsert st.runtimeVersions
                      ("ruby") v) }
                else st
              | none => st
    ⟨st, [], tf⟩

def pinFileTable : List (String × String) :=
  [((".nvmrc"), ("node")), ((".node-version"), ("node")),
   ((".python-version"), ("python")), ((".ruby-version"), ("ruby"))]

/-- One iteration of the version-pin loop (source lines 1196–1209). -/
def pinStep (fs : RepoFS) (max_bytes : Nat) (out : BlockOut)
    (entry : String × String) : BlockOut :=
  match fs.files entry.1 with
  | none => out
  | some bytes =>
    let r := read_text bytes max_bytes
    let tf := out.tf ++ (if r.2 then [entry.1] else [])
    let version := pin_version r.1
    if version ≠ "" then
      ⟨{ out.st with runtimeVersions := (pyDictInsert out.st.runtimeVersions
          entry.2 version) }, out.pe, tf⟩
    else ⟨out.st, out.pe, tf⟩

def processPinFiles (fs : RepoFS) (max_bytes : Nat) (st : CtxState) : BlockOut :=
  pinFileTable.foldl (pinStep fs max_bytes) ⟨st, [], []⟩

/-- The `.tool-versions` block (source lines 1211–1215). -/
def processToolVersions (fs : RepoFS) (max_bytes : Nat)
    (st : CtxState) : BlockOut :=
  match fs.files (".tool-versions") with
  | none => ⟨st, [], []⟩
  | some bytes =>
    let r := read_text bytes max_bytes
    let tf := if r.2 then [(".tool-versions")] else []
    ⟨{ st with runtimeVersions := (pyDictUpdate st.runtimeVersions
        (extract_tool_versions r.1)) }, [], tf⟩

/-- `pathlib`'s `Path.suffix`: the extension from the last dot, empty
when the only dot leads the name or ends it. -/
def pySuffix (name : String) : String :=
  let cs := name.data
  match cs.reverse.findIdx? (fun c => c == '.') with
  | none => ""
  | some rj =>
    let i := cs.length - 1 - rj
    if 0 < i ∧ i < cs.length - 1 then String.mk (cs.drop i) else ""

/-- `_scan_workflows` over the directory listing (names in iteration
order), capped at 25 entries. -/
def scan_workflows_aux : List String → List String → List String
  | [], acc => acc
  | name :: rest, acc =>
    let acc2 := if pySuffix name = (".yml") ∨ pySuffix name = (".yaml") then
                  acc ++ [name]
                else acc
    if 25 ≤ acc2.length then acc2 else scan_workflows_aux rest acc2

def scan_workflows (wf : Option (List String)) : List String :=
  match wf with
  | none => []
  | some names => scan_workflows_aux names []

def ciFallbackNames : List String :=
  [(".gitlab-ci.yml"), ("azure-pipelines.yml"), (".circleci/config.yml")]

/-- The CI block (source lines 1217–1223): workflow files if any,
otherwise the detected single-file pipeline configs. -/
def processCi (fs : RepoFS) (detected_files : List String)
    (st : CtxState) : BlockOut :=
  let workflows := scan_workflows fs.workflowFiles
  if !workflows.isEmpty then ⟨{ st with ciCd := workflows }, [], []⟩
  else if ciFallbackNames.any (fun n => detected_files.contains n) then
    ⟨{ st with ciCd := (ciFallbackNames.filter
        (fun n => detected_files.contains n)) }, [], []⟩
  else ⟨st, [], []⟩

def composeNames : List String :=
  [("docker-compose.yml"), ("docker-compose.yaml")]

/-- One iteration of the compose loop (source lines 1227–1236). -/
def composeStep (fs : RepoFS) (max_bytes : Nat) (out : BlockOut)
    (compose_name : String) : BlockOut :=
  match fs.files compose_name with
  | none => out
  | some bytes =>
    let r := read_text bytes max_bytes
    let tf := out.tf ++ (if r.2 then [compose_name] else [])
    let st := { out.st with container :=
        ({ out.st.container with compose := some compose_name }) }
    let services := extract_docker_compose_services r.1
    let st := if !services.isEmpty then
        { st with container := { st.container with composeServices := some services } }
      else st
    ⟨st, out.pe, tf⟩

/-- The container block (source lines 1225–1239). -/
def processContainer (fs : RepoFS) (max_bytes : Nat)
    (st : CtxState) : BlockOut :=
  let st := if (fs.files ("Dockerfile")).isSome then
      { st with container := { st.container with dockerfile := some ("Dockerfile") } }
    else st
  composeNames.foldl (composeStep fs max_bytes) ⟨st, [], []⟩

/-- `sorted(...)` over the list model of a Python set. -/
def sortStrings (l : List String) : List String :=
  List.insertionSort (fun a b => a ≤ b) l

/-- The final aggregate: every set-typed collection sorted, `doc_hints`
derived from languages, tools and framework display names. -/
structure Ctx where
  languages : List String
  frameworks : List FrameworkMatch
  tools : List String
  config : List (String × JValue)
  packageManagers : List String
  lockfiles : List String
  buildSystems : List String
  runtimeVersions : List (String × String)
  dependencies : List (String × DepEntry)
  scripts : List (String × String)
  packageManagerField : Option String
  goInfo : Option (List (String × String))
  mavenInfo : Option (List (String × String))
  cargoPackage : Option (List (String × Option JValue))
  gradlePluginEntries : List (String × List String)
  ciCd : List String
  container : ContainerInfo
  docHints : List String

/-- The final context assembly (source lines 1241–1259). -/
def finalizeCtx (st : CtxState) : Ctx :=
  let languages := sortStrings st.languages
  let tools := sortStrings st.tools
  let docHints := sortStrings
    (setAddAll (setAddAll (setAddAll [] languages) tools)
      (st.frameworks.map FrameworkMatch.name))
  { languages := languages
    frameworks := st.frameworks
    tools := tools
    config := st.config
    packageManagers := sortStrings st.packageManagers
    lockfiles := sortStrings st.lockfiles
    buildSystems := sortStrings st.buildSystems
    runtimeVersions := st.runtimeVersions
    dependencies := st.dependencies
    scripts := st.scripts
    packageManagerField := st.packageManagerField
    goInfo := st.goInfo
    mavenInfo := st.mavenInfo
    cargoPackage := st.cargoPackage
    gradlePluginEntries := st.gradlePluginEntries
    ciCd := st.ciCd
    container := st.container
    docHints := docHints }

/-- The full returned payload (context plus diagnostics). -/
structure Payload where
  repoRoot : String
  detectedFiles : List String
  truncatedFiles : List String
  parseErrors : List (String × String)
  context : Ctx

/-- `init_repo_context`: run every extraction block in source order over
the repository snapshot and assemble the payload. -/
def init_repo_context (P : Parsers) (fs : RepoFS) (max_bytes : Nat) : Payload :=
  let detectedFiles := scan_root_files fs rootFilesCatalog
  let b1 := processPackageJson P fs max_bytes initState
  let b2 := processTsconfig P fs max_bytes b1.st
  let b3 := processAngular P fs max_bytes b2.st
  let b4 := processEslintrc P fs max_bytes b3.st
  let b5 := processPrettierrc P fs max_bytes b4.st
  let b6 := processStylelintrc P fs max_bytes b5.st
  let b7 := processBabel P fs max_bytes b6.st
  let b8 := processSwcrc P fs max_bytes b7.st
  let b9 := processEditorconfig fs max_bytes b8.st
  let b10 := processTestConfigs fs b9.st
  let b11 := processLockfiles fs b10.st
  let b12 := processPyproject P fs max_bytes b11.st
  let b13 := processRequirements fs max_bytes b12.st
  let b14 := processPipfile fs b13.st
  let b15 := processIniFiles P fs b14.st
  let b16 := processRuffToml P fs max_bytes b15.st
  let b17 := processGoMod fs max_bytes b16.st
  let b18 := processCargoToml P fs max_bytes b17.st
  let b19 := processPomXml fs max_bytes b18.st
  let b20 := processGradle fs max_bytes b19.st
  let b21 := processComposerJson P fs max_bytes b20.st
  let b22 := processGemfile fs max_bytes b21.st
  let b23 := processPinFiles fs max_bytes b22.st
  let b24 := processToolVersions fs max_bytes b23.st
  let b25 := processCi fs detectedFiles b24.st
  let b26 := processContainer fs max_bytes b25.st
  { repoRoot := fs.root
    detectedFiles := detectedFiles
    truncatedFiles := b1.tf ++ b2.tf ++ b3.tf ++ b4.tf ++ b5.tf ++ b6.tf ++
      b7.tf ++ b8.tf ++ b9.tf ++ b10.tf ++ b11.tf ++ b12.tf ++ b13.tf ++
      b14.tf ++ b15.tf ++ b16.tf ++ b17.tf ++ b18.tf ++ b19.tf ++ b20.tf ++
      b21.tf ++ b22.tf ++ b23.tf ++ b24.tf ++ b25.tf ++ b26.tf
    parseErrors := b1.pe ++ b2.pe ++ b3.pe ++ b4.pe ++ b5.pe ++ b6.pe ++
      b7.pe ++ b8.pe ++ b9.pe ++ b10.pe ++ b11.pe ++ b12.pe ++ b13.pe ++
      b14.pe ++ b15.pe ++ b16.pe ++ b17.pe ++ b18.pe ++ b19.pe ++ b20.pe ++
      b21.pe ++ b22.pe ++ b23.pe ++ b24.pe ++ b25.pe ++ b26.pe
    context := finalizeCtx b26.st }

/-! ### Concrete repositories and decoders used by the theorems -/

/-- Decoders that are never consulted by the repositories below (no
structured manifest present). -/
def trivialParsers : Parsers :=
  ⟨fun _ => .error ("unused"), fun _ => .error ("unused"),
   fun _ => .error ("unused")⟩

/-- A repository holding only a requirements file with one dependency,
one blank line, one comment line and one editable-install line. -/
def fsFlask : RepoFS :=
  { root := "/repo",
    files := fun n =>
      if n = ("requirements.txt") then
        some (strBytes ("Flask==2.0.1\n\n# comment\n-e ./local\n"))
      else none,
    workflowFiles := none }

/-- A repository holding only a `go.mod` with ordinary `module` and `go`
directive lines. -/
def fsGoMod : RepoFS :=
  { root := "/repo",
    files := fun n =>
      if n = ("go.mod") then
        some (strBytes ("module example.com/hello\ngo 1.21\n"))
      else none,
    workflowFiles := none }

/-- A repository holding only runtime-version pin files and the
multi-tool version file, with the given optional contents. -/
def pinOnlyFS (o1 o2 o3 o4 otv : Option (List Nat)) : RepoFS :=
  { root := "/repo",
    files := fun n =>
      if n = (".nvmrc") then o1
      else if n = (".node-version") then o2
      else if n = (".python-version") then o3
      else if n = (".ruby-version") then o4
      else if n = (".tool-versions") then otv
      else none,
    workflowFiles := none }

/-! ### Shared auxiliary lemmas -/

theorem summarize_list_of_le {v : List String}
    (h : v.length ≤ MAX_DEPENDENCIES) : summarize_list v = ⟨v, false⟩ := by
  unfold summarize_list
  rw [if_neg (by omega)]

theorem extract_requirements_aux_length :
    ∀ (lines : List String) (acc : List String),
      acc.length < MAX_DEPENDENCIES →
      (extract_requirements_aux lines acc).length ≤ MAX_DEPENDENCIES := by
  intro lines
  induction lines with
  | nil => intro acc h; unfold extract_requirements_aux; omega
  | cons line rest ih =>
    intro acc h
    unfold extract_requirements_aux
    dsimp only
    split
    · exact ih acc h
    · split
      · exact ih acc h
      · split
        · simp; omega
        · rename_i hlt
          refine ih (acc ++ [pyStrip line]) ?_
          simp at hlt ⊢
          omega

theorem extract_requirements_length (text : String) :
    (extract_requirements text).length ≤ MAX_DEPENDENCIES :=
  extract_requirements_aux_length _ [] (by simp [MAX_DEPENDENCIES])

theorem extract_ruby_gems_aux_length :
    ∀ (lines : List String) (acc : List String),
      acc.length < MAX_DEPENDENCIES →
      (extract_ruby_gems_aux lines acc).length ≤ MAX_DEPENDENCIES := by
  intro lines
  induction lines with
  | nil => intro acc h; unfold extract_ruby_gems_aux; omega
  | cons line rest ih =>
    intro acc h
    unfold extract_ruby_gems_aux
    dsimp only
    split
    · exact ih acc h
    · cases hm : gem_line_match (pyStrip line) with
      | none =>
        dsimp only
        split
        · omega
        · exact ih acc h
      | some g =>
        dsimp only
        split
        · simp; omega
        · rename_i hlt
          refine ih _ ?_
          simp at hlt ⊢
          omega

theorem extract_ruby_gems_length (text : String) :
    (extract_ruby_gems text).length ≤ MAX_DEPENDENCIES :=
  extract_ruby_gems_aux_length _ [] (by simp [MAX_DEPENDENCIES])

theorem extract_gradle_plugins_aux_length :
    ∀ (fuel : Nat) (cs : List Char) (acc : List String),
      acc.length < 25 →
      (extract_gradle_plugins_aux fuel cs acc).length ≤ 25 := by
  intro fuel
  induction fuel with
  | zero => intro cs acc h; unfold extract_gradle_plugins_aux; omega
  | succ n ih =>
    intro cs acc h
    match cs with
    | [] => unfold extract_gradle_plugins_aux; omega
    | c :: rest =>
      unfold extract_gradle_plugins_aux
      cases hm : gradle_id_match (c :: rest) with
      | none => exact ih rest acc h
      | some pr =>
        simp only []
        split
        · simp; omega
        · exact ih pr.2 _ (by simp at *; omega)

theorem extract_gradle_plugins_length (text : String) :
    (extract_gradle_plugins text).length ≤ 25 :=
  extract_gradle_plugins_aux_length _ _ [] (by simp)

theorem extract_docker_compose_services_aux_length :
    ∀ (lines : List String) (inServices : Bool) (acc : List String),
      acc.length < 25 →
      (extract_docker_compose_services_aux lines inServices acc).length ≤ 25 := by
  intro lines
  induction lines with
  | nil => intro b acc h; unfold extract_docker_compose_services_aux; omega
  | cons line rest ih =>
    intro b acc h
    unfold extract_docker_compose_services_aux
    dsimp only
    split
    · exact ih true acc h
    · split
      · split
        · cases hm : compose_service_match (pyRstrip line) with
          | none =>
            dsimp only
            split
            · omega
            · exact ih b acc h
          | some nm =>
            dsimp only
            split
            · simp; omega
            · rename_i hlt
              refine ih b _ ?_
              simp at hlt ⊢
              omega
        · omega
      · split
        · omega
        · exact ih b acc h

theorem extract_docker_compose_services_length (text : String) :
    (extract_docker_compose_services text).length ≤ 25 :=
  extract_docker_compose_services_aux_length _ false [] (by simp)

theorem extract_rule_keys_length (rules : Option JValue) :
    (extract_rule_keys rules).length ≤ MAX_DEPENDENCIES := by
  unfold extract_rule_keys
  split
  · simp
  · simp

/-! ### C1 -/

set_option maxRecDepth 100000 in
/-- C1 (counterexample): a requirements file with 201 dependency lines —
all of them genuine entries, none skipped — yields a summary with
exactly 200 entries and `truncated = false`: the flag is silently
dropped, contradicting the claim that a count above the cap always comes
with `truncated = true`. -/
theorem C1_counterexample :
    (((pySplitlines (joinLines (List.replicate 201 ("a")))).map pyStrip).countP
        (fun l => !(l == "" || pyStartsWith l ("#") || pyStartsWith l ("-"))))
      = 201 ∧
    extract_requirements (joinLines (List.replicate 201 ("a"))) =
      List.replicate 200 ("a") ∧
    summarize_list (extract_requirements (joinLines (List.replicate 201 ("a")))) =
      ⟨List.replicate 200 ("a"), false⟩ := by
  refine ⟨by decide, by decide, by decide⟩

/-- C1 (amended): the two summarizers themselves enforce the cap/flag
contract exactly — above the cap exactly `MAX_DEPENDENCIES` entries with
`truncated = true`, at or under it everything preserved with
`truncated = false`.   But the line-oriented extractors (requirement
lines, Ruby gems, rule keys) pre-cap their output at `MAX_DEPENDENCIES`
before summarization, so their summaries always report
`truncated = false`; and the gradle-plugin and compose-service lists are
capped at 25 with no flag at all. -/
theorem C1_bounded_collections :
    (∀ m : List (String × String),
      (MAX_DEPENDENCIES < m.length →
        summarize_dependencies m = ⟨m.take MAX_DEPENDENCIES, true⟩) ∧
      (m.length ≤ MAX_DEPENDENCIES → summarize_dependencies m = ⟨m, false⟩)) ∧
    (∀ v : List String,
      (MAX_DEPENDENCIES < v.length →
        summarize_list v = ⟨v.take MAX_DEPENDENCIES, true⟩) ∧
      (v.length ≤ MAX_DEPENDENCIES → summarize_list v = ⟨v, false⟩)) ∧
    (∀ text, (extract_requirements text).length ≤ MAX_DEPENDENCIES ∧
      (summarize_list (extract_requirements text)).truncated = false) ∧
    (∀ text, (extract_ruby_gems text).length ≤ MAX_DEPENDENCIES ∧
      (summarize_list (extract_ruby_gems text)).truncated = false) ∧
    (∀ rules, (extract_rule_keys rules).length ≤ MAX_DEPENDENCIES ∧
      (summarize_list (extract_rule_keys rules)).truncated = false) ∧
    (∀ text, (extract_gradle_plugins text).length ≤ 25) ∧
    (∀ text, (extract_docker_compose_services text).length ≤ 25) := by
  refine ⟨?_, ?_, ?_, ?_, ?_, ?_, ?_⟩
  · intro m
    constructor
    · intro h; unfold summarize_dependencies; rw [if_pos h]
    · intro h; unfold summarize_dependencies; rw [if_neg (by omega)]
  · intro v
    constructor
    · intro h; unfold summarize_list; rw [if_pos h]
    · intro h; exact summarize_list_of_le h
  · intro text
    refine ⟨extract_requirements_length text, ?_⟩
    rw [summarize_list_of_le (extract_requirements_length text)]
  · intro text
    refine ⟨extract_ruby_gems_length text, ?_⟩
    rw [summarize_list_of_le (extract_ruby_gems_length text)]
  · intro rules
    refine ⟨extract_rule_keys_length rules, ?_⟩
    rw [summarize_list_of_le (extract_rule_keys_length rules)]
  · exact extract_gradle_plugins_length
  · exact extract_docker_compose_services_length

set_option maxRecDepth 100000 in
/-- Witness for `C1_bounded_collections` at concrete inputs. -/
theorem C1_bounded_collections_witness :
    summarize_dependencies (List.replicate 201 ((("p")), (("1")))) =
      ⟨List.replicate 200 ((("p")), (("1"))), true⟩ ∧
    summarize_list [("x")] = ⟨[("x")], false⟩ := by
  constructor
  · have h := (C1_bounded_collections.1 (List.replicate 201 ((("p")), (("1"))))).1
      (by decide)
    rw [h]; decide
  · have h := (C1_bounded_collections.2.1 [("x")]).2 (by decide)
    rw [h]

/-! ### C4 -/

/-- C4: the bounded reader returns the replacement-decoding of at most
`max_bytes` bytes of the content, with `truncated` set exactly when the
content is longer than `max_bytes`; and the decoder is total, replacing
an invalid byte with U+FFFD instead of failing. -/
theorem C4_bounded_reader (data : List Nat) (max_bytes : Nat) :
    read_text data max_bytes =
      (String.mk (decodeUtf8Replace (data.take max_bytes)),
        decide (max_bytes < data.length)) ∧
    (∀ bs : List Nat, decodeUtf8Replace (255 :: bs) =
      replacementChar :: decodeUtf8Replace bs) := by
  constructor
  · unfold read_text
    split
    · rename_i h; rw [decide_eq_true h]
    · rename_i h
      rw [decide_eq_false h, List.take_of_length_le (by omega)]
  · intro bs
    show decodeUtf8ReplaceAux (bs.length + 1) (255 :: bs) = _
    unfold decodeUtf8ReplaceAux
    norm_num [decodeUtf8Replace]

/-! ### C5 -/

set_option maxRecDepth 100000 in
/-- C5: for a requirements file holding `Flask==2.0.1`, a blank line, a
comment line and an editable-install line, the dependency summary for
that file is exactly the one entry with `truncated = false`, and the
derived framework detection contains the match
`name = "Flask", package = "flask"`. -/
theorem C5_flask_requirements :
    pyDictGet (init_repo_context trivialParsers fsFlask MAX_FILE_BYTES).context.dependencies
        ("requirements.txt") =
      some (.itemList ⟨[("Flask==2.0.1")], false⟩) ∧
    (init_repo_context trivialParsers fsFlask MAX_FILE_BYTES).context.frameworks =
      [⟨("Flask"), ("flask")⟩] ∧
    (init_repo_context trivialParsers fsFlask MAX_FILE_BYTES).context.languages =
      [("Python")] := by
  refine ⟨by decide, by decide, by decide⟩

/-! ### C2 -/

set_option maxRecDepth 100000 in
/-- C2 (code bug): the directive regexes are written with a doubled
backslash inside a raw string (`r"^module\\s+(.+)$"`), so they match
only lines containing a literal backslash after the keyword.  On an
ordinary `go.mod` (`module example.com/hello` / `go 1.21`) nothing is
extracted and the context carries no `go` record, although the Go
language and the `Go modules` build system are still recorded; in
general no backslash-free line can ever match. -/
theorem C2_go_directives (keyword line : String)
    (h : ¬ ('\x5c' ∈ line.data)) :
    go_line_match keyword line = none ∧
    go_mod_info ("module example.com/hello\ngo 1.21\n") = [] ∧
    (init_repo_context trivialParsers fsGoMod MAX_FILE_BYTES).context.goInfo = none ∧
    (init_repo_context trivialParsers fsGoMod MAX_FILE_BYTES).context.languages =
      [("Go")] ∧
    (init_repo_context trivialParsers fsGoMod MAX_FILE_BYTES).context.buildSystems =
      [("Go modules")] := by
  refine ⟨?_, by decide, by decide, by decide, by decide⟩
  unfold go_line_match
  dsimp only
  split
  · rename_i hpre
    exfalso
    apply h
    have hp : (keyword ++ ("\x5c")).data <+: line.data := by
      simpa using hpre
    rcases hp with ⟨t, ht⟩
    rw [← ht]
    have : (keyword ++ ("\x5c")).data = keyword.data ++ ['\x5c'] := rfl
    rw [this]
    simp
  · rfl

/-- Witness for `C2_go_directives` at the ordinary `go.mod` lines. -/
theorem C2_go_directives_witness :
    go_line_match ("module") ("module example.com/hello") = none ∧
    go_line_match ("go") ("go 1.21") = none := by
  refine ⟨(C2_go_directives ("module") ("module example.com/hello")
    (by decide)).1, (C2_go_directives ("go") ("go 1.21") (by decide)).1⟩

/-! ### Splitline lemmas shared by C6 and C7 -/

theorem string_data_append (a b : String) : (a ++ b).data = a.data ++ b.data := rfl

theorem string_mk_data (s : String) : String.mk s.data = s := rfl

theorem string_ne_empty_iff {s : String} : s ≠ "" ↔ s.data ≠ [] := by
  constructor
  · intro h hd
    exact h (by cases s with | mk d => cases hd; rfl)
  · intro h he
    exact h (by cases he; rfl)

theorem splitlinesAux_cons_nonbreak {c : Char} (rest acc : List Char)
    (hc : isLineBreak c = false) :
    splitlinesAux (c :: rest) acc = splitlinesAux rest (c :: acc) := by
  rw [splitlinesAux.eq_def]
  split
  · rename_i heq; simp at heq
  · rename_i heq
    injection heq with h1 h2
    rw [h1] at hc
    simp [isLineBreak] at hc
  · rename_i heq
    injection heq with h1 h2
    subst h1; subst h2
    rw [if_neg (by simp [hc])]

theorem splitlinesAux_newline (s acc : List Char) :
    splitlinesAux ('\n' :: s) acc = acc.reverse :: splitlinesAux s [] := by
  rw [splitlinesAux.eq_def]
  rfl

/-- Splitting a break-free line glued with `\n` onto further text yields
that line followed by the split of the rest. -/
theorem splitlinesAux_append_line :
    ∀ (lc : List Char), (∀ c ∈ lc, isLineBreak c = false) →
      ∀ (acc s : List Char),
        splitlinesAux (lc ++ '\n' :: s) acc =
          (acc.reverse ++ lc) :: splitlinesAux s [] := by
  intro lc
  induction lc with
  | nil =>
    intro _ acc s
    simpa using splitlinesAux_newline s acc
  | cons c lc ih =>
    intro h acc s
    have hc : isLineBreak c = false := h c (by simp)
    rw [List.cons_append, splitlinesAux_cons_nonbreak _ _ hc,
      ih (fun x hx => h x (by simp [hx])) (c :: acc) s]
    simp

/-- Splitting a break-free tail: one segment unless both the text and
the accumulator are empty. -/
theorem splitlinesAux_no_break :
    ∀ (lc : List Char), (∀ c ∈ lc, isLineBreak c = false) →
      ∀ (acc : List Char),
        splitlinesAux lc acc =
          if lc = [] ∧ acc = [] then [] else [acc.reverse ++ lc] := by
  intro lc
  induction lc with
  | nil =>
    intro _ acc
    rw [splitlinesAux.eq_def]
    by_cases h : acc = [] <;> simp [h]
  | cons c lc ih =>
    intro h acc
    have hc : isLineBreak c = false := h c (by simp)
    rw [splitlinesAux_cons_nonbreak _ _ hc,
      ih (fun x hx => h x (by simp [hx])) (c :: acc)]
    simp

/-- The first split segment is the longest break-free prefix. -/
theorem splitlinesAux_headD :
    ∀ (lc acc : List Char),
      (splitlinesAux lc acc).headD [] =
        acc.reverse ++ lc.takeWhile (fun c => !isLineBreak c) := by
  intro lc
  induction lc with
  | nil =>
    intro acc
    rw [splitlinesAux.eq_def]
    by_cases h : acc = [] <;> simp [h]
  | cons c lc ih =>
    intro acc
    by_cases hc : isLineBreak c = true
    · have hr : c = '\r' ∨ c ≠ '\r' := em _
      have htake : (c :: lc).takeWhile (fun c => !isLineBreak c) = [] := by
        simp [List.takeWhile_cons, hc]
      rw [htake]
      rw [splitlinesAux.eq_def]
      split
      · rename_i heq; simp at heq
      · simp
      · rename_i heq
        injection heq with h1 h2
        subst h1; subst h2
        rw [if_pos hc]
        simp
    · have hc' : isLineBreak c = false := by simpa using hc
      rw [splitlinesAux_cons_nonbreak _ _ hc', ih (c :: acc)]
      simp [List.takeWhile_cons, hc']

theorem headD_map_mk (L : List (List Char)) :
    (L.map String.mk).headD "" = String.mk (L.headD []) := by
  cases L <;> rfl

/-! ### C7 -/

theorem isLineBreak_isSpace {c : Char} (h : isLineBreak c = true) :
    pyIsSpace c = true := by
  simp only [isLineBreak, decide_eq_true_eq] at h
  simp only [pyIsSpace, decide_eq_true_eq]
  omega

theorem dropWhile_head_false {p : Char → Bool} :
    ∀ (l : List Char) {c t}, l.dropWhile p = c :: t → p c = false := by
  intro l
  induction l with
  | nil => intro c t h; simp at h
  | cons x xs ih =>
    intro c t h
    rw [List.dropWhile_cons] at h
    by_cases hx : p x = true
    · rw [if_pos hx] at h
      exact ih h
    · rw [if_neg hx] at h
      injection h with h1 _
      subst h1
      simpa using hx

/-- The pin-file extraction equals the longest break-free prefix of the
whitespace-stripped text: leading blank lines and leading whitespace are
skipped, and the version is the remainder of that first line exactly as
it stands (trailing spaces included when later content follows). -/
theorem pin_version_strip_firstline (text : String) :
    pin_version text =
      String.mk ((pyStripL text.data).takeWhile (fun c => !isLineBreak c)) := by
  unfold pin_version
  dsimp only
  split
  · rename_i h
    have hd : pyStripL text.data = [] := congrArg String.data h
    rw [hd]
    rfl
  · unfold pySplitlines
    rw [headD_map_mk, splitlinesAux_headD]
    rfl

theorem pin_version_empty_iff (text : String) :
    pin_version text = "" ↔ pyStrip text = "" := by
  constructor
  · intro h
    rw [pin_version_strip_firstline] at h
    have hd : (pyStripL text.data).takeWhile (fun c => !isLineBreak c) = [] :=
      congrArg String.data h
    cases hst : pyStripL text.data with
    | nil => show String.mk _ = "" ; rw [hst]
    | cons c t =>
      exfalso
      have hc : pyIsSpace c = false := by
        unfold pyStripL pyLstripL at hst
        exact dropWhile_head_false _ hst
      have hcb : isLineBreak c = false := by
        cases hb : isLineBreak c
        · rfl
        · rw [isLineBreak_isSpace hb] at hc; cases hc
      rw [hst] at hd
      simp [List.takeWhile_cons, hcb] at hd
  · intro h
    unfold pin_version
    dsimp only
    rw [if_pos h]

/-- C7 (counterexample): a `.nvmrc` holding `18.2 ` (trailing space)
before a second line yields the runtime version `"18.2 "`, not the
whitespace-trimmed `"18.2"` the claim describes. -/
theorem C7_counterexample :
    (init_repo_context trivialParsers
        (pinOnlyFS (some (strBytes ("18.2 \n20\n"))) none none none none)
        MAX_FILE_BYTES).context.runtimeVersions = [((("node")), ("18.2 "))] ∧
    pyStrip ("18.2 ") = ("18.2") ∧ ("18.2 ") ≠ ("18.2") := by
  refine ⟨by decide, by decide, by decide⟩

/-- C7 (amended): the version value of a pin file is the first line of
the whitespace-stripped text — equivalently the longest break-free
prefix after stripping, so leading blank lines are skipped but trailing
spaces inside that line survive when later content follows; a file with
no non-blank content yields no entry, and a repository holding only a
`.nvmrc` gets exactly one runtime-version entry, keyed `node`. -/
theorem C7_pin_first_line (text : String) (P : Parsers) (mb : Nat)
    (bytes : List Nat) :
    pin_version text =
      String.mk ((pyStripL text.data).takeWhile (fun c => !isLineBreak c)) ∧
    (pin_version text = "" ↔ pyStrip text = "") ∧
    ((init_repo_context P (pinOnlyFS (some bytes) none none none none)
        mb).context.runtimeVersions =
      if pin_version (read_text bytes mb).1 = "" then []
      else [((("node")), pin_version (read_text bytes mb).1)]) := by
  refine ⟨pin_version_strip_firstline text, pin_version_empty_iff text, ?_⟩
  show (processPinFiles (pinOnlyFS (some bytes) none none none none) mb
      initState).st.runtimeVersions = _
  by_cases hv : pin_version (read_text bytes mb).1 = ""
  · simp [processPinFiles, pinFileTable, pinStep, pinOnlyFS, hv, initState]
  · simp [processPinFiles, pinFileTable, pinStep, pinOnlyFS, hv, initState,
      pyDictInsert]

/-! ### C6 -/

theorem takeWhile_append_of_all {p : Char → Bool} :
    ∀ (l t : List Char), (∀ c ∈ l, p c = true) →
      (l ++ t).takeWhile p = l ++ t.takeWhile p ∧
      (l ++ t).dropWhile p = t.dropWhile p := by
  intro l
  induction l with
  | nil => intro t _; simp
  | cons c l ih =>
    intro t h
    have hc : p c = true := h c (by simp)
    have := ih t (fun x hx => h x (by simp [hx]))
    simp [List.takeWhile_cons, List.dropWhile_cons, hc, this.1, this.2]

theorem pyRstripL_last_nonspace (l : List Char) (c : Char)
    (h : pyIsSpace c = false) : pyRstripL (l ++ [c]) = l ++ [c] := by
  unfold pyRstripL
  rw [List.reverse_append]
  simp [List.dropWhile_cons, h]

theorem isServiceChar_not_break {c : Char} (h : isServiceChar c = true) :
    isLineBreak c = false := by
  simp only [isServiceChar, decide_eq_true_eq] at h
  simp only [isLineBreak, decide_eq_false_iff_not]
  omega

theorem isServiceChar_not_space {c : Char} (h : isServiceChar c = true) :
    pyIsSpace c = false := by
  simp only [isServiceChar, decide_eq_true_eq] at h
  simp only [pyIsSpace, decide_eq_false_iff_not]
  omega

/-- A two-space-indented service key matches the compose-service
pattern, capturing the service name. -/
theorem compose_service_match_indent (n : String) (hne : n ≠ "")
    (hall : ∀ c ∈ n.data, isServiceChar c = true) :
    compose_service_match (("  ") ++ n ++ (":")) = some n := by
  have hdata : (("  ") ++ n ++ (":")).data = ' ' :: ' ' :: (n.data ++ [':']) := rfl
  unfold compose_service_match
  rw [hdata]
  have htw := takeWhile_append_of_all (p := isServiceChar) n.data [':'] hall
  rw [show (List.dropWhile isServiceChar [':']) = [':'] from rfl] at htw
  rw [show (List.takeWhile isServiceChar [':']) = [] from rfl] at htw
  dsimp only
  rw [if_pos (by constructor <;> decide)]
  rw [htw.1, htw.2]
  simp only [List.append_nil]
  rw [if_pos (by simpa using string_ne_empty_iff.mp hne)]

theorem pyRstrip_indent_line (n : String) :
    pyRstrip (("  ") ++ n ++ (":")) = ("  ") ++ n ++ (":") := by
  show String.mk (pyRstripL ((' ' :: ' ' :: n.data) ++ [':'])) = _
  rw [pyRstripL_last_nonspace _ _ (by decide)]
  rfl

theorem startsWith_indent_not_services (n : String) :
    pyStartsWith (("  ") ++ n ++ (":")) ("services:") = false := by
  show List.isPrefixOf ('s' :: _) (' ' :: _) = false
  rw [List.isPrefixOf]
  simp

theorem startsWith_indent_space (n : String) :
    pyStartsWith (("  ") ++ n ++ (":")) (" ") = true := by
  show List.isPrefixOf [' '] (' ' :: _) = true
  rw [List.isPrefixOf]
  simp [List.isPrefixOf]

/-- One loop step on a two-space-indented service key appends its name. -/
theorem compose_aux_service_line (n : String) (hne : n ≠ "")
    (hall : ∀ c ∈ n.data, isServiceChar c = true) (ls : List String)
    (acc : List String) (hlen : acc.length + 1 < 25) :
    extract_docker_compose_services_aux ((("  ") ++ n ++ (":")) :: ls) true acc =
      extract_docker_compose_services_aux ls true (acc ++ [n]) := by
  conv_lhs => rw [extract_docker_compose_services_aux.eq_def]
  simp only [pyRstrip_indent_line n, startsWith_indent_not_services n,
    startsWith_indent_space n, compose_service_match_indent n hne hall,
    Bool.false_eq_true, if_false, or_true, if_true]
  rw [if_neg (by simp; omega)]

/-- One loop step on a non-empty unindented non-`services:` line breaks
the scan. -/
theorem compose_aux_break (u : String) (ls : List String) (acc : List String)
    (h1 : pyRstrip u ≠ "") (h2 : pyStartsWith (pyRstrip u) (" ") = false)
    (h3 : pyStartsWith (pyRstrip u) ("services:") = false) :
    extract_docker_compose_services_aux (u :: ls) true acc = acc := by
  conv_lhs => rw [extract_docker_compose_services_aux.eq_def]
  simp only [h2, h3, Bool.false_eq_true, if_false, if_true]
  rw [if_neg (by simp [h1])]

/-- C6: a compose file consisting of a `services:` line, two two-space
indented service keys, then a non-empty unindented line (followed by
anything) yields exactly the two service names; the scan stops at the
unindented line, so nothing after it contributes. -/
theorem C6_compose_two_services (n1 n2 u : String) (rest : List String)
    (h1 : n1 ≠ "") (h1a : ∀ c ∈ n1.data, isServiceChar c = true)
    (h2 : n2 ≠ "") (h2a : ∀ c ∈ n2.data, isServiceChar c = true)
    (hu0 : ∀ c ∈ u.data, isLineBreak c = false)
    (hu1 : pyRstrip u ≠ "")
    (hu2 : pyStartsWith (pyRstrip u) (" ") = false)
    (hu3 : pyStartsWith (pyRstrip u) ("services:") = false) :
    extract_docker_compose_services
      (joinLines ([("services:"), ("  ") ++ n1 ++ (":"),
        ("  ") ++ n2 ++ (":"), u] ++ rest)) = [n1, n2] := by
  have hune : u ≠ "" := by
    intro he
    exact hu1 (by rw [he]; rfl)
  have hbreak1 : ∀ c ∈ (("  ") ++ n1 ++ (":")).data, isLineBreak c = false := by
    intro c hc
    rw [show (("  ") ++ n1 ++ (":")).data = ' ' :: ' ' :: (n1.data ++ [':'])
      from rfl] at hc
    simp at hc
    rcases hc with h | h | h
    · rw [h]; decide
    · exact isServiceChar_not_break (h1a c h)
    · rw [h]; decide
  have hbreak2 : ∀ c ∈ (("  ") ++ n2 ++ (":")).data, isLineBreak c = false := by
    intro c hc
    rw [show (("  ") ++ n2 ++ (":")).data = ' ' :: ' ' :: (n2.data ++ [':'])
      from rfl] at hc
    simp at hc
    rcases hc with h | h | h
    · rw [h]; decide
    · exact isServiceChar_not_break (h2a c h)
    · rw [h]; decide
  obtain ⟨tail, htail⟩ :
      ∃ tail, pySplitlines (joinLines (u :: rest)) = u :: tail := by
    cases rest with
    | nil =>
      refine ⟨[], ?_⟩
      show (splitlinesAux u.data []).map String.mk = [u]
      rw [splitlinesAux_no_break u.data hu0 []]
      rw [if_neg (by simp [string_ne_empty_iff.mp hune])]
      simp [string_mk_data]
    | cons r rs =>
      refine ⟨(splitlinesAux (joinLines (r :: rs)).data []).map String.mk, ?_⟩
      show (splitlinesAux (u ++ "\n" ++ joinLines (r :: rs)).data []).map
          String.mk = _
      rw [show (u ++ "\n" ++ joinLines (r :: rs)).data =
        u.data ++ '\n' :: (joinLines (r :: rs)).data by
          rw [string_data_append, string_data_append]
          simp]
      rw [splitlinesAux_append_line u.data hu0 []]
      simp [string_mk_data]
  have hlines : pySplitlines (joinLines ([("services:"), ("  ") ++ n1 ++ (":"),
      ("  ") ++ n2 ++ (":"), u] ++ rest)) =
      ("services:") :: (("  ") ++ n1 ++ (":")) :: (("  ") ++ n2 ++ (":")) ::
        u :: tail := by
    show (splitlinesAux (("services:") ++ "\n" ++ (("  ") ++ n1 ++ (":") ++ "\n"
      ++ (("  ") ++ n2 ++ (":") ++ "\n" ++ joinLines (u :: rest)))).data []).map
        String.mk = _
    rw [show (("services:") ++ "\n" ++ (("  ") ++ n1 ++ (":") ++ "\n"
      ++ (("  ") ++ n2 ++ (":") ++ "\n" ++ joinLines (u :: rest)))).data =
      ("services:").data ++ '\n' :: ((("  ") ++ n1 ++ (":")).data ++ '\n' ::
        ((("  ") ++ n2 ++ (":")).data ++ '\n' ::
          (joinLines (u :: rest)).data)) by
        simp only [string_data_append]
        simp]
    rw [splitlinesAux_append_line _ (by decide) []]
    rw [splitlinesAux_append_line _ hbreak1 []]
    rw [splitlinesAux_append_line _ hbreak2 []]
    rw [← htail]
    simp only [pySplitlines, List.map_cons, List.nil_append]
    rfl
  unfold extract_docker_compose_services
  rw [hlines]
  rw [show extract_docker_compose_services_aux (("services:") ::
      (("  ") ++ n1 ++ (":")) :: (("  ") ++ n2 ++ (":")) :: u :: tail) false [] =
    extract_docker_compose_services_aux ((("  ") ++ n1 ++ (":")) ::
      (("  ") ++ n2 ++ (":")) :: u :: tail) true [] from rfl]
  rw [compose_aux_service_line n1 h1 h1a _ [] (by simp)]
  simp only [List.nil_append]
  rw [compose_aux_service_line n2 h2 h2a _ [n1] (by simp)]
  simp only [List.cons_append, List.nil_append]
  rw [compose_aux_break u tail [n1, n2] hu1 hu2 hu3]

/-- Witness for `C6_compose_two_services`: the concrete compose file
with services `web` and `db` followed by an unindented `volumes:` key. -/
theorem C6_compose_two_services_witness :
    extract_docker_compose_services
      (joinLines ([("services:"), ("  ") ++ ("web") ++ (":"),
        ("  ") ++ ("db") ++ (":"), ("volumes:")] ++ [("  data:")])) =
      [("web"), ("db")] := by
  exact C6_compose_two_services ("web") ("db") ("volumes:") [("  data:")]
    (by decide) (by decide) (by decide) (by decide) (by decide) (by decide)
    (by decide) (by decide)

/-! ### C9 -/

/-- Membership in `Path.parents` is exactly being a proper prefix. -/
theorem pyParents_contains_iff (p root : List String) :
    (pyParents p).contains root = true ↔ (root <+: p ∧ root ≠ p) := by
  unfold pyParents
  rw [List.elem_iff]
  constructor
  · intro h
    simp only [List.mem_map, List.mem_range] at h
    obtain ⟨i, hi, heq⟩ := h
    subst heq
    refine ⟨List.take_prefix i p, ?_⟩
    intro he
    have hlen : (p.take i).length = p.length := by rw [he]
    rw [List.length_take] at hlen
    omega
  · intro h
    obtain ⟨hpre, hne⟩ := h
    simp only [List.mem_map, List.mem_range]
    have htake := List.prefix_iff_eq_take.mp hpre
    refine ⟨root.length, ?_, htake.symm⟩
    have hle := hpre.length_le
    rcases Nat.lt_or_ge root.length p.length with hlt | hge
    · exact hlt
    · exfalso
      apply hne
      rw [htake, List.take_of_length_le (by omega)]

theorem safe_repo_path_outside (root : List String) (path_str : String)
    (h : ¬ root <+: lexResolve (pathJoinSegs root path_str)) :
    safe_repo_path root path_str =
      .error (("Path is outside repo root: ") ++ path_str) := by
  unfold safe_repo_path
  dsimp only
  have hc : ¬ ((pyParents (lexResolve (pathJoinSegs root path_str))).contains
      root = true ∨ lexResolve (pathJoinSegs root path_str) = root) := by
    intro hc
    rcases hc with hc | hc
    · exact h ((pyParents_contains_iff _ _).mp hc).1
    · exact h (by rw [hc])
  rw [if_neg hc]

/-- C9: the file-reading operations confine access to the repository
root.  `_safe_repo_path` joins the input against the root and resolves
it; a resolved path of which the root is not a prefix (e.g. via `..`
segments or absolute components) raises `ValueError`, both in
`read_file` and in `read_file_at_ref`; and `read_file` raises
`FileNotFoundError` when the confined path is not an existing regular
file. -/
theorem C9_path_confinement :
    (∀ (root : List String) (path_str : String) (p : List String),
       safe_repo_path root path_str = .ok p →
         p = lexResolve (pathJoinSegs root path_str) ∧ root <+: p) ∧
    (∀ (root : List String) (path_str : String),
       ¬ root <+: lexResolve (pathJoinSegs root path_str) →
         safe_repo_path root path_str =
           .error (("Path is outside repo root: ") ++ path_str)) ∧
    (∀ (tree : List String → Option FsNode) (root : List String)
        (path : String) (max_bytes : Nat),
       ¬ root <+: lexResolve (pathJoinSegs root path) →
         read_file tree root path max_bytes =
           .error (.valueError (("Path is outside repo root: ") ++ path))) ∧
    (∀ (gitShow : String → String → String) (root : List String)
        (path ref : String) (max_bytes : Nat),
       ¬ root <+: lexResolve (pathJoinSegs root path) →
         read_file_at_ref gitShow root path ref max_bytes =
           .error (.valueError (("Path is outside repo root: ") ++ path))) ∧
    (∀ (tree : List String → Option FsNode) (root : List String)
        (path : String) (max_bytes : Nat) (p : List String),
       safe_repo_path root path = .ok p →
       (∀ b, tree p ≠ some (.file b)) →
         read_file tree root path max_bytes =
           .error (.fileNotFound (("File not found: ") ++ path))) := by
  refine ⟨?_, safe_repo_path_outside, ?_, ?_, ?_⟩
  · intro root path_str p h
    unfold safe_repo_path at h
    dsimp only at h
    split at h
    · rename_i hc
      injection h with h
      subst h
      refine ⟨rfl, ?_⟩
      rcases hc with hc | hc
      · exact ((pyParents_contains_iff _ _).mp hc).1
      · rw [hc]
    · cases h
  · intro tree root path max_bytes h
    unfold read_file
    rw [safe_repo_path_outside root path h]
  · intro gitShow root path ref max_bytes h
    unfold read_file_at_ref
    rw [safe_repo_path_outside root path h]
  · intro tree root path max_bytes p hok hfile
    unfold read_file
    rw [hok]
    dsimp only
    cases ht : tree p with
    | none => rfl
    | some node =>
      cases node with
      | file bytes => exact absurd ht (hfile bytes)
      | dir => rfl

/-- Witness for `C9_path_confinement` at concrete escaping paths and a
missing file. -/
theorem C9_path_confinement_witness :
    safe_repo_path [("repo")] ("../etc/passwd") =
      .error (("Path is outside repo root: ") ++ ("../etc/passwd")) ∧
    read_file (fun _ => none) [("repo")] ("/etc/passwd") 100 =
      .error (.valueError (("Path is outside repo root: ") ++ ("/etc/passwd"))) ∧
    read_file_at_ref (fun _ _ => ("x")) [("repo")] ("/etc/passwd") ("HEAD") 100 =
      .error (.valueError (("Path is outside repo root: ") ++ ("/etc/passwd"))) ∧
    read_file (fun _ => none) [("repo")] ("README.md") 100 =
      .error (.fileNotFound (("File not found: ") ++ ("README.md"))) := by
  refine ⟨C9_path_confinement.2.1 _ _ (by decide),
    C9_path_confinement.2.2.1 _ _ _ _ (by decide),
    C9_path_confinement.2.2.2.1 _ _ _ _ _ (by decide),
    C9_path_confinement.2.2.2.2 _ _ _ _ [("repo"), ("README.md")] rfl
      (fun b h => by cases h)⟩

/-! ### C10 -/

theorem pyDictGet_insert_self {α : Type} (d : List (String × α)) (k : String)
    (v : α) : pyDictGet (pyDictInsert d k v) k = some v := by
  induction d with
  | nil => simp [pyDictInsert, pyDictGet]
  | cons kv rest ih =>
    obtain ⟨k1, v1⟩ := kv
    by_cases h : k1 = k
    · simp [pyDictInsert, pyDictGet, h]
    · simp [pyDictInsert, pyDictGet, h, ih]

theorem pyDictGet_insert_ne {α : Type} (d : List (String × α)) (k k' : String)
    (v : α) (h : k' ≠ k) :
    pyDictGet (pyDictInsert d k v) k' = pyDictGet d k' := by
  induction d with
  | nil => simp [pyDictInsert, pyDictGet, Ne.symm h]
  | cons kv rest ih =>
    obtain ⟨k1, v1⟩ := kv
    by_cases h1 : k1 = k
    · subst h1
      simp [pyDictInsert, pyDictGet, Ne.symm h]
    · simp only [pyDictInsert, if_neg h1, pyDictGet]
      by_cases h2 : k1 = k'
      · rw [if_pos h2, if_pos h2]
      · rw [if_neg h2, if_neg h2]
        exact ih

/-- Keys of the association list, used to state key uniqueness. -/
def pyDictKeys {α : Type} (d : List (String × α)) : List String :=
  d.map Prod.fst

theorem pyDictKeys_insert {α : Type} (d : List (String × α)) (k : String)
    (v : α) :
    pyDictKeys (pyDictInsert d k v) =
      if k ∈ pyDictKeys d then pyDictKeys d else pyDictKeys d ++ [k] := by
  induction d with
  | nil => simp [pyDictInsert, pyDictKeys]
  | cons kv rest ih =>
    obtain ⟨k1, v1⟩ := kv
    by_cases h : k1 = k
    · subst h
      simp [pyDictInsert, pyDictKeys]
    · simp only [pyDictInsert, if_neg h, pyDictKeys, List.map_cons] at ih ⊢
      rw [ih]
      by_cases hm : k ∈ rest.map Prod.fst
      · simp [hm, Ne.symm h]
      · simp [hm, Ne.symm h]

theorem pyDictInsert_nodup {α : Type} (d : List (String × α)) (k : String)
    (v : α) (h : (pyDictKeys d).Nodup) :
    (pyDictKeys (pyDictInsert d k v)).Nodup := by
  rw [pyDictKeys_insert]
  by_cases hm : k ∈ pyDictKeys d
  · simpa [hm] using h
  · rw [if_neg hm]
    rw [List.nodup_append]
    refine ⟨h, List.nodup_singleton k, ?_⟩
    intro a ha hb
    rw [List.mem_singleton] at hb
    subst hb
    exact hm ha

theorem extract_tool_versions_nodup (text : String) :
    (pyDictKeys (extract_tool_versions text)).Nodup := by
  unfold extract_tool_versions
  generalize pySplitlines text = lines
  have aux : ∀ (lines : List String) (d : List (String × String)),
      (pyDictKeys d).Nodup → (pyDictKeys (lines.foldl toolVersionsStep d)).Nodup := by
    intro lines
    induction lines with
    | nil => intro d h; exact h
    | cons line rest ih =>
      intro d h
      rw [List.foldl_cons]
      apply ih
      unfold toolVersionsStep
      dsimp only
      split
      · exact h
      · split
        · exact pyDictInsert_nodup _ _ _ h
        · exact h
  exact aux lines [] (by simp [pyDictKeys])

theorem pyDictGet_update_not_mem {α : Type} (m : List (String × α)) :
    ∀ (d : List (String × α)) (k : String), k ∉ pyDictKeys m →
      pyDictGet (pyDictUpdate d m) k = pyDictGet d k := by
  induction m with
  | nil => intro d k _; rfl
  | cons kv rest ih =>
    intro d k h
    obtain ⟨k1, v1⟩ := kv
    simp only [pyDictKeys, List.map_cons, List.mem_cons, not_or] at h
    show pyDictGet (pyDictUpdate (pyDictInsert d k1 v1) rest) k = _
    rw [ih _ k (by simpa [pyDictKeys] using h.2),
      pyDictGet_insert_ne _ _ _ _ h.1]

theorem pyDictGet_update_of_get {α : Type} (m : List (String × α)) :
    ∀ (d : List (String × α)) (k : String) (w : α),
      (pyDictKeys m).Nodup → pyDictGet m k = some w →
      pyDictGet (pyDictUpdate d m) k = some w := by
  induction m with
  | nil => intro d k w _ h; cases h
  | cons kv rest ih =>
    intro d k w hnd hget
    obtain ⟨k1, v1⟩ := kv
    simp only [pyDictKeys, List.map_cons, List.nodup_cons] at hnd
    show pyDictGet (pyDictUpdate (pyDictInsert d k1 v1) rest) k = some w
    by_cases h : k1 = k
    · subst h
      rw [pyDictGet] at hget
      rw [if_pos rfl] at hget
      injection hget with hget
      subst hget
      rw [pyDictGet_update_not_mem rest _ k1 (by simpa [pyDictKeys] using hnd.1)]
      exact pyDictGet_insert_self _ _ _
    · rw [pyDictGet, if_neg h] at hget
      exact ih _ k w hnd.2 hget

/-- Looking up `node` after the pin loop when `.node-version` exists
with a non-blank version: the later pin file wins regardless of what
`.nvmrc` contributed. -/
theorem processPinFiles_node_lookup (fs : RepoFS) (mb : Nat) (b2 : List Nat)
    (h2 : fs.files ((".node-version")) = some b2)
    (h3 : fs.files ((".python-version")) = none)
    (h4 : fs.files ((".ruby-version")) = none)
    (hb2 : pin_version (read_text b2 mb).1 ≠ "") (st : CtxState) :
    pyDictGet ((processPinFiles fs mb st).st.runtimeVersions) ("node") =
      some (pin_version (read_text b2 mb).1) := by
  unfold processPinFiles pinFileTable
  simp only [List.foldl_cons, List.foldl_nil]
  rw [show ∀ out : BlockOut, pinStep fs mb out ((".ruby-version"), ("ruby")) =
    out from fun out => by unfold pinStep; rw [h4]]
  rw [show ∀ out : BlockOut, pinStep fs mb out ((".python-version"),
    ("python")) = out from fun out => by unfold pinStep; rw [h3]]
  rw [show ∀ out : BlockOut, (pinStep fs mb out ((".node-version"),
      ("node"))).st.runtimeVersions = pyDictInsert out.st.runtimeVersions
      ("node") (pin_version (read_text b2 mb).1) from fun out => by
    unfold pinStep
    rw [h2]
    dsimp only
    rw [if_pos hb2]]
  exact pyDictGet_insert_self _ _ _

set_option maxHeartbeats 1000000 in
/-- C10: version pins are consulted in the fixed order `.nvmrc`,
`.node-version`, `.python-version`, `.ruby-version` and finally
`.tool-versions`, with each later writer overwriting the earlier value:
with both node pin files present the `.node-version` value is the final
`node` entry (whatever `.nvmrc` holds), and a key listed in
`.tool-versions` overrides the single-purpose pin file's value. -/
theorem C10_runtime_version_precedence (P : Parsers) (mb : Nat)
    (o1 : Option (List Nat)) (b2 b3 btv : List Nat) (w : String)
    (hb2 : pin_version (read_text b2 mb).1 ≠ "")
    (htv : pyDictGet (extract_tool_versions (read_text btv mb).1) ("python") =
      some w) :
    pyDictGet ((init_repo_context P (pinOnlyFS o1 (some b2) none none none)
        mb).context.runtimeVersions) ("node") =
      some (pin_version (read_text b2 mb).1) ∧
    pyDictGet ((init_repo_context P (pinOnlyFS none none (some b3) none
        (some btv)) mb).context.runtimeVersions) ("python") = some w := by
  constructor
  · cases o1 with
    | none =>
      show pyDictGet ((processPinFiles (pinOnlyFS none (some b2) none none none)
          mb initState).st.runtimeVersions) ("node") = _
      exact processPinFiles_node_lookup _ mb b2 rfl rfl rfl hb2 initState
    | some b1 =>
      show pyDictGet ((processPinFiles
          (pinOnlyFS (some b1) (some b2) none none none) mb
          initState).st.runtimeVersions) ("node") = _
      exact processPinFiles_node_lookup _ mb b2 rfl rfl rfl hb2 initState
  · show pyDictGet (pyDictUpdate
        ((processPinFiles (pinOnlyFS none none (some b3) none (some btv)) mb
          initState).st.runtimeVersions)
        (extract_tool_versions (read_text btv mb).1)) ("python") = some w
    exact pyDictGet_update_of_get _ _ _ _ (extract_tool_versions_nodup _) htv

/-- Witness for `C10_runtime_version_precedence` at concrete pin files. -/
theorem C10_runtime_version_precedence_witness :
    pyDictGet ((init_repo_context trivialParsers
        (pinOnlyFS (some (strBytes ("18"))) (some (strBytes ("20.1"))) none none
          none) MAX_FILE_BYTES).context.runtimeVersions) ("node") =
      some ("20.1") ∧
    pyDictGet ((init_repo_context trivialParsers
        (pinOnlyFS none none (some (strBytes ("3.11"))) none
          (some (strBytes ("python 3.12\n"))))
        MAX_FILE_BYTES).context.runtimeVersions) ("python") =
      some ("3.12") := by
  have h := C10_runtime_version_precedence trivialParsers MAX_FILE_BYTES
    (some (strBytes ("18"))) (strBytes ("20.1")) (strBytes ("3.11"))
    (strBytes ("python 3.12\n")) ("3.12") (by decide) (by decide)
  refine ⟨?_, h.2⟩
  have h1 := h.1
  rw [show pin_version (read_text (strBytes ("20.1")) MAX_FILE_BYTES).1 =
    ("20.1") from by decide] at h1
  exact h1

/-! ### C8 -/

theorem sortStrings_sorted (l : List String) :
    List.Sorted (fun a b : String => a ≤ b) (sortStrings l) :=
  List.sorted_insertionSort _ l

/-! ### C3: parse-failure isolation

A failed structured parse must contribute exactly a parse-error entry
and nothing else: the resulting context coincides with the context of
the same repository with the offending file removed.  The lemmas below
show each extraction block only reads its own files, so removing an
unrelated file leaves it unchanged. -/

/-- The repository with one file removed. -/
def eraseFile (fs : RepoFS) (name : String) : RepoFS :=
  { fs with files := fun n => if n = name then none else fs.files n }

theorem eraseFile_files_ne (fs : RepoFS) (name n : String) (h : n ≠ name) :
    (eraseFile fs name).files n = fs.files n := by
  show (if n = name then none else fs.files n) = fs.files n
  rw [if_neg h]

theorem eraseFile_files_self (fs : RepoFS) (name : String) :
    (eraseFile fs name).files name = none := by
  show (if name = name then none else fs.files name) = none
  rw [if_pos rfl]

theorem filter_contains_congr {p q : String → Bool} (n : String)
    (h : p n = q n) :
    ∀ l : List String, (l.filter p).contains n = (l.filter q).contains n := by
  intro l
  simp [h]

theorem scan_erase_contains (fs : RepoFS) (m n : String) (h : n ≠ m) :
    (scan_root_files (eraseFile fs m) rootFilesCatalog).contains n =
      (scan_root_files fs rootFilesCatalog).contains n := by
  unfold scan_root_files
  exact filter_contains_congr n (by rw [eraseFile_files_ne fs m n h]) _

/-! Per-block congruence: agreement of two repositories on a block's
file names makes the block's output identical. -/

theorem processPackageJson_congr (P : Parsers) (fs fs' : RepoFS) (mb : Nat)
    (h : fs'.files ("package.json") = fs.files ("package.json")) :
    ∀ st, processPackageJson P fs' mb st = processPackageJson P fs mb st := by
  intro st
  unfold processPackageJson
  rw [h]

theorem tsconfigStep_congr (P : Parsers) (fs fs' : RepoFS) (mb : Nat)
    (name : String) (h : fs'.files name = fs.files name) :
    ∀ acc, tsconfigStep P fs' mb acc name = tsconfigStep P fs mb acc name := by
  intro acc
  unfold tsconfigStep
  rw [h]

theorem processTsconfig_congr (P : Parsers) (fs fs' : RepoFS) (mb : Nat)
    (h1 : fs'.files ("tsconfig.json") = fs.files ("tsconfig.json"))
    (h2 : fs'.files ("tsconfig.base.json") = fs.files ("tsconfig.base.json"))
    (h3 : fs'.files ("tsconfig.app.json") = fs.files ("tsconfig.app.json"))
    (h4 : fs'.files ("tsconfig.spec.json") = fs.files ("tsconfig.spec.json")) :
    ∀ st, processTsconfig P fs' mb st = processTsconfig P fs mb st := by
  intro st
  unfold processTsconfig tsconfigNames
  simp only [List.foldl_cons, List.foldl_nil,
    tsconfigStep_congr P fs fs' mb _ h1, tsconfigStep_congr P fs fs' mb _ h2,
    tsconfigStep_congr P fs fs' mb _ h3, tsconfigStep_congr P fs fs' mb _ h4]

theorem processAngular_congr (P : Parsers) (fs fs' : RepoFS) (mb : Nat)
    (h : fs'.files ("angular.json") = fs.files ("angular.json")) :
    ∀ st, processAngular P fs' mb st = processAngular P fs mb st := by
  intro st
  unfold processAngular
  rw [h]

theorem find_isSome_congr (fs fs' : RepoFS) :
    ∀ names : List String, (∀ n ∈ names, fs'.files n = fs.files n) →
      names.find? (fun n => (fs'.files n).isSome) =
        names.find? (fun n => (fs.files n).isSome) := by
  intro names
  induction names with
  | nil => intro _; rfl
  | cons x xs ih =>
    intro h
    rw [List.find?_cons, List.find?_cons, h x (by simp)]
    cases (fs.files x).isSome
    · exact ih (fun n hn => h n (by simp [hn]))
    · rfl

theorem firstJsonConfigBlock_congr (P : Parsers) (fs fs' : RepoFS) (mb : Nat)
    (names : List String) (key : String)
    (extract : List (String × JValue) → List (String × JValue))
    (hAll : ∀ n ∈ names, fs'.files n = fs.files n) :
    ∀ st, firstJsonConfigBlock P fs' mb names key extract st =
      firstJsonConfigBlock P fs mb names key extract st := by
  intro st
  unfold firstJsonConfigBlock
  rw [find_isSome_congr fs fs' names hAll]
  cases hf : names.find? (fun n => (fs.files n).isSome) with
  | none => rfl
  | some name =>
    dsimp only
    rw [hAll name (List.mem_of_find?_eq_some hf)]

theorem processEslintrc_congr (P : Parsers) (fs fs' : RepoFS) (mb : Nat)
    (h1 : fs'.files (".eslintrc") = fs.files (".eslintrc"))
    (h2 : fs'.files (".eslintrc.json") = fs.files (".eslintrc.json")) :
    ∀ st, processEslintrc P fs' mb st = processEslintrc P fs mb st := by
  intro st
  unfold processEslintrc
  exact firstJsonConfigBlock_congr P fs fs' mb _ _ _
    (by intro n hn; simp at hn; rcases hn with h | h <;> subst h <;>
      assumption) st

theorem processPrettierrc_congr (P : Parsers) (fs fs' : RepoFS) (mb : Nat)
    (h1 : fs'.files (".prettierrc") = fs.files (".prettierrc"))
    (h2 : fs'.files (".prettierrc.json") = fs.files (".prettierrc.json")) :
    ∀ st, processPrettierrc P fs' mb st = processPrettierrc P fs mb st := by
  intro st
  unfold processPrettierrc
  exact firstJsonConfigBlock_congr P fs fs' mb _ _ _
    (by intro n hn; simp at hn; rcases hn with h | h <;> subst h <;>
      assumption) st

theorem processStylelintrc_congr (P : Parsers) (fs fs' : RepoFS) (mb : Nat)
    (h1 : fs'.files (".stylelintrc") = fs.files (".stylelintrc"))
    (h2 : fs'.files (".stylelintrc.json") = fs.files (".stylelintrc.json")) :
    ∀ st, processStylelintrc P fs' mb st = processStylelintrc P fs mb st := by
  intro st
  unfold processStylelintrc
  exact firstJsonConfigBlock_congr P fs fs' mb _ _ _
    (by intro n hn; simp at hn; rcases hn with h | h <;> subst h <;>
      assumption) st

theorem processBabel_congr (P : Parsers) (fs fs' : RepoFS) (mb : Nat)
    (h1 : fs'.files (".babelrc") = fs.files (".babelrc"))
    (h2 : fs'.files ("babel.config.json") = fs.files ("babel.config.json")) :
    ∀ st, processBabel P fs' mb st = processBabel P fs mb st := by
  intro st
  unfold processBabel
  rw [find_isSome_congr fs fs' _
    (by intro n hn; simp at hn; rcases hn with h | h <;> subst h <;>
      assumption)]
  cases hf : [(".babelrc"), ("babel.config.json")].find?
      (fun n => (fs.files n).isSome) with
  | none => rfl
  | some name =>
    dsimp only
    have hm := List.mem_of_find?_eq_some hf
    simp at hm
    rcases hm with h | h <;> subst h
    · rw [h1]
    · rw [h2]

theorem processSwcrc_congr (P : Parsers) (fs fs' : RepoFS) (mb : Nat)
    (h : fs'.files (".swcrc") = fs.files (".swcrc")) :
    ∀ st, processSwcrc P fs' mb st = processSwcrc P fs mb st := by
  intro st
  unfold processSwcrc
  rw [h]

theorem processEditorconfig_congr (fs fs' : RepoFS) (mb : Nat)
    (h : fs'.files (".editorconfig") = fs.files (".editorconfig")) :
    ∀ st, processEditorconfig fs' mb st = processEditorconfig fs mb st := by
  intro st
  unfold processEditorconfig
  rw [h]

theorem testConfigStep_congr (fs fs' : RepoFS) (name : String)
    (h : fs'.files name = fs.files name) :
    ∀ cfg, testConfigStep fs' cfg name = testConfigStep fs cfg name := by
  intro cfg
  unfold testConfigStep
  rw [h]

theorem processTestConfigs_congr (fs fs' : RepoFS)
    (h1 : fs'.files ("jest.config.js") = fs.files ("jest.config.js"))
    (h2 : fs'.files ("vitest.config.ts") = fs.files ("vitest.config.ts"))
    (h3 : fs'.files ("vitest.config.js") = fs.files ("vitest.config.js"))
    (h4 : fs'.files ("cypress.config.ts") = fs.files ("cypress.config.ts"))
    (h5 : fs'.files ("playwright.config.ts") = fs.files ("playwright.config.ts")) :
    ∀ st, processTestConfigs fs' st = processTestConfigs fs st := by
  intro st
  unfold processTestConfigs testConfigNames
  simp only [List.foldl_cons, List.foldl_nil,
    testConfigStep_congr fs fs' _ h1, testConfigStep_congr fs fs' _ h2,
    testConfigStep_congr fs fs' _ h3, testConfigStep_congr fs fs' _ h4,
    testConfigStep_congr fs fs' _ h5]

theorem processLockfiles_congr (fs fs' : RepoFS)
    (h1 : fs'.files ("pnpm-lock.yaml") = fs.files ("pnpm-lock.yaml"))
    (h2 : fs'.files ("yarn.lock") = fs.files ("yarn.lock"))
    (h3 : fs'.files ("package-lock.json") = fs.files ("package-lock.json")) :
    ∀ st, processLockfiles fs' st = processLockfiles fs st := by
  intro st
  unfold processLockfiles
  rw [h1, h2, h3]

theorem processPyproject_congr (P : Parsers) (fs fs' : RepoFS) (mb : Nat)
    (h : fs'.files ("pyproject.toml") = fs.files ("pyproject.toml")) :
    ∀ st, processPyproject P fs' mb st = processPyproject P fs mb st := by
  intro st
  unfold processPyproject
  rw [h]

theorem requirementsStep_congr (fs fs' : RepoFS) (mb : Nat) (name : String)
    (h : fs'.files name = fs.files name) :
    ∀ out, requirementsStep fs' mb out name = requirementsStep fs mb out name := by
  intro out
  unfold requirementsStep
  rw [h]

theorem processRequirements_congr (fs fs' : RepoFS) (mb : Nat)
    (h1 : fs'.files ("requirements.txt") = fs.files ("requirements.txt"))
    (h2 : fs'.files ("requirements-dev.txt") = fs.files ("requirements-dev.txt")) :
    ∀ st, processRequirements fs' mb st = processRequirements fs mb st := by
  intro st
  unfold processRequirements requirementsNames
  simp only [List.foldl_cons, List.foldl_nil,
    requirementsStep_congr fs fs' mb _ h1, requirementsStep_congr fs fs' mb _ h2]

theorem processPipfile_congr (fs fs' : RepoFS)
    (h : fs'.files ("Pipfile") = fs.files ("Pipfile")) :
    ∀ st, processPipfile fs' st = processPipfile fs st := by
  intro st
  unfold processPipfile
  rw [h]

theorem iniStep_congr (P : Parsers) (fs fs' : RepoFS) (name : String)
    (h : fs'.files name = fs.files name) :
    ∀ out, iniStep P fs' out name = iniStep P fs out name := by
  intro out
  unfold iniStep
  rw [h]

theorem processIniFiles_congr (P : Parsers) (fs fs' : RepoFS)
    (h1 : fs'.files ("setup.cfg") = fs.files ("setup.cfg"))
    (h2 : fs'.files ("tox.ini") = fs.files ("tox.ini"))
    (h3 : fs'.files ("pytest.ini") = fs.files ("pytest.ini"))
    (h4 : fs'.files ("mypy.ini") = fs.files ("mypy.ini")) :
    ∀ st, processIniFiles P fs' st = processIniFiles P fs st := by
  intro st
  unfold processIniFiles iniNames
  simp only [List.foldl_cons, List.foldl_nil,
    iniStep_congr P fs fs' _ h1, iniStep_congr P fs fs' _ h2,
    iniStep_congr P fs fs' _ h3, iniStep_congr P fs fs' _ h4]

theorem processRuffToml_congr (P : Parsers) (fs fs' : RepoFS) (mb : Nat)
    (h : fs'.files ("ruff.toml") = fs.files ("ruff.toml")) :
    ∀ st, processRuffToml P fs' mb st = processRuffToml P fs mb st := by
  intro st
  unfold processRuffToml
  rw [h]

theorem processGoMod_congr (fs fs' : RepoFS) (mb : Nat)
    (h : fs'.files ("go.mod") = fs.files ("go.mod")) :
    ∀ st, processGoMod fs' mb st = processGoMod fs mb st := by
  intro st
  unfold processGoMod
  rw [h]

theorem processCargoToml_congr (P : Parsers) (fs fs' : RepoFS) (mb : Nat)
    (h : fs'.files ("Cargo.toml") = fs.files ("Cargo.toml")) :
    ∀ st, processCargoToml P fs' mb st = processCargoToml P fs mb st := by
  intro st
  unfold processCargoToml
  rw [h]

theorem processPomXml_congr (fs fs' : RepoFS) (mb : Nat)
    (h : fs'.files ("pom.xml") = fs.files ("pom.xml")) :
    ∀ st, processPomXml fs' mb st = processPomXml fs mb st := by
  intro st
  unfold processPomXml
  rw [h]

theorem gradleStep_congr (fs fs' : RepoFS) (mb : Nat) (name : String)
    (h : fs'.files name = fs.files name) :
    ∀ out, gradleStep fs' mb out name = gradleStep fs mb out name := by
  intro out
  unfold gradleStep
  rw [h]

theorem processGradle_congr (fs fs' : RepoFS) (mb : Nat)
    (h1 : fs'.files ("build.gradle") = fs.files ("build.gradle"))
    (h2 : fs'.files ("build.gradle.kts") = fs.files ("build.gradle.kts")) :
    ∀ st, processGradle fs' mb st = processGradle fs mb st := by
  intro st
  unfold processGradle gradleNames
  simp only [List.foldl_cons, List.foldl_nil,
    gradleStep_congr fs fs' mb _ h1, gradleStep_congr fs fs' mb _ h2]

theorem processComposerJson_congr (P : Parsers) (fs fs' : RepoFS) (mb : Nat)
    (h : fs'.files ("composer.json") = fs.files ("composer.json")) :
    ∀ st, processComposerJson P fs' mb st = processComposerJson P fs mb st := by
  intro st
  unfold processComposerJson
  rw [h]

theorem processGemfile_congr (fs fs' : RepoFS) (mb : Nat)
    (h : fs'.files ("Gemfile") = fs.files ("Gemfile")) :
    ∀ st, processGemfile fs' mb st = processGemfile fs mb st := by
  intro st
  unfold processGemfile
  rw [h]

theorem pinStep_congr (fs fs' : RepoFS) (mb : Nat) (entry : String × String)
    (h : fs'.files entry.1 = fs.files entry.1) :
    ∀ out, pinStep fs' mb out entry = pinStep fs mb out entry := by
  intro out
  unfold pinStep
  rw [h]

theorem processPinFiles_congr (fs fs' : RepoFS) (mb : Nat)
    (h1 : fs'.files (".nvmrc") = fs.files (".nvmrc"))
    (h2 : fs'.files (".node-version") = fs.files (".node-version"))
    (h3 : fs'.files (".python-version") = fs.files (".python-version"))
    (h4 : fs'.files (".ruby-version") = fs.files (".ruby-version")) :
    ∀ st, processPinFiles fs' mb st = processPinFiles fs mb st := by
  intro st
  unfold processPinFiles pinFileTable
  simp only [List.foldl_cons, List.foldl_nil,
    pinStep_congr fs fs' mb (((".nvmrc")), (("node"))) h1,
    pinStep_congr fs fs' mb (((".node-version")), (("node"))) h2,
    pinStep_congr fs fs' mb (((".python-version")), (("python"))) h3,
    pinStep_congr fs fs' mb (((".ruby-version")), (("ruby"))) h4]

theorem processToolVersions_congr (fs fs' : RepoFS) (mb : Nat)
    (h : fs'.files (".tool-versions") = fs.files (".tool-versions")) :
    ∀ st, processToolVersions fs' mb st = processToolVersions fs mb st := by
  intro st
  unfold processToolVersions
  rw [h]

theorem processCi_congr (fs fs' : RepoFS) (d d' : List String)
    (hwf : fs'.workflowFiles = fs.workflowFiles)
    (hc1 : d'.contains (".gitlab-ci.yml") = d.contains (".gitlab-ci.yml"))
    (hc2 : d'.contains ("azure-pipelines.yml") = d.contains ("azure-pipelines.yml"))
    (hc3 : d'.contains (".circleci/config.yml") = d.contains (".circleci/config.yml")) :
    ∀ st, processCi fs' d' st = processCi fs d st := by
  intro st
  unfold processCi ciFallbackNames
  rw [hwf]
  simp only [List.any_cons, List.any_nil, List.filter_cons, List.filter_nil,
    hc1, hc2, hc3]

theorem composeStep_congr (fs fs' : RepoFS) (mb : Nat) (name : String)
    (h : fs'.files name = fs.files name) :
    ∀ out, composeStep fs' mb out name = composeStep fs mb out name := by
  intro out
  unfold composeStep
  rw [h]

theorem processContainer_congr (fs fs' : RepoFS) (mb : Nat)
    (h1 : fs'.files ("Dockerfile") = fs.files ("Dockerfile"))
    (h2 : fs'.files ("docker-compose.yml") = fs.files ("docker-compose.yml"))
    (h3 : fs'.files ("docker-compose.yaml") = fs.files ("docker-compose.yaml")) :
    ∀ st, processContainer fs' mb st = processContainer fs mb st := by
  intro st
  unfold processContainer composeNames
  simp only [List.foldl_cons, List.foldl_nil, h1,
    composeStep_congr fs fs' mb _ h2, composeStep_congr fs fs' mb _ h3]

/-! Block behaviour on a failed parse and on an absent file, for each
structured manifest. -/

theorem processPackageJson_error (P : Parsers) (fs : RepoFS) (mb : Nat)
    (bytes : List Nat) (e : String)
    (hfs : fs.files ("package.json") = some bytes)
    (herr : P.jsonLoads ((read_text bytes mb).1) = .error e) :
    ∀ st, processPackageJson P fs mb st =
      ⟨st, [(("package.json"), e)],
        if (read_text bytes mb).2 then [("package.json")] else []⟩ := by
  intro st
  unfold processPackageJson read_json
  rw [hfs]
  dsimp only
  rw [herr]

theorem processPackageJson_absent (P : Parsers) (fs : RepoFS) (mb : Nat)
    (hfs : fs.files ("package.json") = none) :
    ∀ st, processPackageJson P fs mb st = ⟨st, [], []⟩ := by
  intro st
  unfold processPackageJson
  rw [hfs]

theorem processPyproject_error (P : Parsers) (fs : RepoFS) (mb : Nat)
    (bytes : List Nat) (e : String)
    (hfs : fs.files ("pyproject.toml") = some bytes)
    (herr : P.tomlLoads ((read_text bytes mb).1) = .error e) :
    ∀ st, processPyproject P fs mb st =
      ⟨st, [(("pyproject.toml"), e)],
        if (read_text bytes mb).2 then [("pyproject.toml")] else []⟩ := by
  intro st
  unfold processPyproject read_json
  rw [hfs]
  dsimp only
  rw [herr]

theorem processPyproject_absent (P : Parsers) (fs : RepoFS) (mb : Nat)
    (hfs : fs.files ("pyproject.toml") = none) :
    ∀ st, processPyproject P fs mb st = ⟨st, [], []⟩ := by
  intro st
  unfold processPyproject
  rw [hfs]

theorem processCargoToml_error (P : Parsers) (fs : RepoFS) (mb : Nat)
    (bytes : List Nat) (e : String)
    (hfs : fs.files ("Cargo.toml") = some bytes)
    (herr : P.tomlLoads ((read_text bytes mb).1) = .error e) :
    ∀ st, processCargoToml P fs mb st =
      ⟨st, [(("Cargo.toml"), e)],
        if (read_text bytes mb).2 then [("Cargo.toml")] else []⟩ := by
  intro st
  unfold processCargoToml read_json
  rw [hfs]
  dsimp only
  rw [herr]

theorem processCargoToml_absent (P : Parsers) (fs : RepoFS) (mb : Nat)
    (hfs : fs.files ("Cargo.toml") = none) :
    ∀ st, processCargoToml P fs mb st = ⟨st, [], []⟩ := by
  intro st
  unfold processCargoToml
  rw [hfs]

theorem processComposerJson_error (P : Parsers) (fs : RepoFS) (mb : Nat)
    (bytes : List Nat) (e : String)
    (hfs : fs.files ("composer.json") = some bytes)
    (herr : P.jsonLoads ((read_text bytes mb).1) = .error e) :
    ∀ st, processComposerJson P fs mb st =
      ⟨st, [(("composer.json"), e)],
        if (read_text bytes mb).2 then [("composer.json")] else []⟩ := by
  intro st
  unfold processComposerJson read_json
  rw [hfs]
  dsimp only
  rw [herr]

theorem processComposerJson_absent (P : Parsers) (fs : RepoFS) (mb : Nat)
    (hfs : fs.files ("composer.json") = none) :
    ∀ st, processComposerJson P fs mb st = ⟨st, [], []⟩ := by
  intro st
  unfold processComposerJson
  rw [hfs]


/-- The final context depends on each extraction block only through
its state component, so state-level agreement of all 26 blocks makes
the two contexts equal. -/
theorem init_context_congr (P : Parsers) (fs FS : RepoFS) (mb : Nat)
    (g1 : ∀ st, (processPackageJson P FS mb st).st =
      (processPackageJson P fs mb st).st)
    (g2 : ∀ st, (processTsconfig P FS mb st).st =
      (processTsconfig P fs mb st).st)
    (g3 : ∀ st, (processAngular P FS mb st).st =
      (processAngular P fs mb st).st)
    (g4 : ∀ st, (processEslintrc P FS mb st).st =
      (processEslintrc P fs mb st).st)
    (g5 : ∀ st, (processPrettierrc P FS mb st).st =
      (processPrettierrc P fs mb st).st)
    (g6 : ∀ st, (processStylelintrc P FS mb st).st =
      (processStylelintrc P fs mb st).st)
    (g7 : ∀ st, (processBabel P FS mb st).st =
      (processBabel P fs mb st).st)
    (g8 : ∀ st, (processSwcrc P FS mb st).st =
      (processSwcrc P fs mb st).st)
    (g9 : ∀ st, (processEditorconfig FS mb st).st =
      (processEditorconfig fs mb st).st)
    (g10 : ∀ st, (processTestConfigs FS st).st =
      (processTestConfigs fs st).st)
    (g11 : ∀ st, (processLockfiles FS st).st =
      (processLockfiles fs st).st)
    (g12 : ∀ st, (processPyproject P FS mb st).st =
      (processPyproject P fs mb st).st)
    (g13 : ∀ st, (processRequirements FS mb st).st =
      (processRequirements fs mb st).st)
    (g14 : ∀ st, (processPipfile FS st).st =
      (processPipfile fs st).st)
    (g15 : ∀ st, (processIniFiles P FS st).st =
      (processIniFiles P fs st).st)
    (g16 : ∀ st, (processRuffToml P FS mb st).st =
      (processRuffToml P fs mb st).st)
    (g17 : ∀ st, (processGoMod FS mb st).st =
      (processGoMod fs mb st).st)
    (g18 : ∀ st, (processCargoToml P FS mb st).st =
      (processCargoToml P fs mb st).st)
    (g19 : ∀ st, (processPomXml FS mb st).st =
      (processPomXml fs mb st).st)
    (g20 : ∀ st, (processGradle FS mb st).st =
      (processGradle fs mb st).st)
    (g21 : ∀ st, (processComposerJson P FS mb st).st =
      (processComposerJson P fs mb st).st)
    (g22 : ∀ st, (processGemfile FS mb st).st =
      (processGemfile fs mb st).st)
    (g23 : ∀ st, (processPinFiles FS mb st).st =
      (processPinFiles fs mb st).st)
    (g24 : ∀ st, (processToolVersions FS mb st).st =
      (processToolVersions fs mb st).st)
    (g25 : ∀ st, (processCi FS (scan_root_files FS rootFilesCatalog) st).st =
      (processCi fs (scan_root_files fs rootFilesCatalog) st).st)
    (g26 : ∀ st, (processContainer FS mb st).st =
      (processContainer fs mb st).st) :
    (init_repo_context P FS mb).context =
      (init_repo_context P fs mb).context := by
  simp only [init_repo_context]
  simp only [g1, g2, g3, g4, g5, g6, g7, g8, g9, g10, g11, g12, g13, g14, g15, g16, g17, g18, g19, g20, g21, g22, g23, g24, g25, g26]

set_option maxHeartbeats 1000000 in
/-- C3: a structured manifest whose content fails to parse contributes
exactly a parse-error entry: the aggregation still completes and
returns a full context, the file name appears (with the decoder's
message) in the parse-error map, and the resulting context is identical
to that of the same repository with the offending file removed — so no
dependency, framework or config signal derives from that file and the
extraction of every other manifest is unaffected.  Stated for each of
the four structured manifests. -/
theorem C3_parse_error_isolation (P : Parsers) (fs : RepoFS) (mb : Nat) :
    (∀ (bytes : List Nat) (e : String),
      fs.files (("package.json")) = some bytes →
      P.jsonLoads ((read_text bytes mb).1) = .error e →
      (((("package.json")), e) ∈ (init_repo_context P fs mb).parseErrors ∧
       (init_repo_context P fs mb).context =
         (init_repo_context P (eraseFile fs (("package.json"))) mb).context)) ∧
    (∀ (bytes : List Nat) (e : String),
      fs.files (("pyproject.toml")) = some bytes →
      P.tomlLoads ((read_text bytes mb).1) = .error e →
      (((("pyproject.toml")), e) ∈ (init_repo_context P fs mb).parseErrors ∧
       (init_repo_context P fs mb).context =
         (init_repo_context P (eraseFile fs (("pyproject.toml"))) mb).context)) ∧
    (∀ (bytes : List Nat) (e : String),
      fs.files (("Cargo.toml")) = some bytes →
      P.tomlLoads ((read_text bytes mb).1) = .error e →
      (((("Cargo.toml")), e) ∈ (init_repo_context P fs mb).parseErrors ∧
       (init_repo_context P fs mb).context =
         (init_repo_context P (eraseFile fs (("Cargo.toml"))) mb).context)) ∧
    (∀ (bytes : List Nat) (e : String),
      fs.files (("composer.json")) = some bytes →
      P.jsonLoads ((read_text bytes mb).1) = .error e →
      (((("composer.json")), e) ∈ (init_repo_context P fs mb).parseErrors ∧
       (init_repo_context P fs mb).context =
         (init_repo_context P (eraseFile fs (("composer.json"))) mb).context)) := by
  refine ⟨?_, ?_, ?_, ?_⟩
  · intro bytes e hfs herr
    have hall := processPackageJson_error P fs mb bytes e hfs herr
    constructor
    · simp only [init_repo_context, hall]
      exact List.mem_append_left _ (List.mem_append_left _
        (List.mem_append_left _ (List.mem_append_left _
        (List.mem_append_left _ (List.mem_append_left _
        (List.mem_append_left _ (List.mem_append_left _
        (List.mem_append_left _ (List.mem_append_left _
        (List.mem_append_left _ (List.mem_append_left _
        (List.mem_append_left _ (List.mem_append_left _
        (List.mem_append_left _ (List.mem_append_left _
        (List.mem_append_left _ (List.mem_append_left _
        (List.mem_append_left _ (List.mem_append_left _
        (List.mem_append_left _ (List.mem_append_left _
        (List.mem_append_left _ (List.mem_append_left _
        (List.mem_append_left _ (List.mem_cons_self _
        _)))))))))))))))))))))))))
    · refine (init_context_congr P fs (eraseFile fs (("package.json"))) mb
        (fun st => by
          rw [processPackageJson_absent P (eraseFile fs (("package.json"))) mb
            (eraseFile_files_self fs (("package.json"))) st, hall st])
        (fun st => congrArg BlockOut.st
          (processTsconfig_congr P fs (eraseFile fs (("package.json"))) mb (eraseFile_files_ne fs (("package.json")) ("tsconfig.json") (by decide)) (eraseFile_files_ne fs (("package.json")) ("tsconfig.base.json") (by decide)) (eraseFile_files_ne fs (("package.json")) ("tsconfig.app.json") (by decide)) (eraseFile_files_ne fs (("package.json")) ("tsconfig.spec.json") (by decide)) st))
        (fun st => congrArg BlockOut.st
          (processAngular_congr P fs (eraseFile fs (("package.json"))) mb (eraseFile_files_ne fs (("package.json")) ("angular.json") (by decide)) st))
        (fun st => congrArg BlockOut.st
          (processEslintrc_congr P fs (eraseFile fs (("package.json"))) mb (eraseFile_files_ne fs (("package.json")) (".eslintrc") (by decide)) (eraseFile_files_ne fs (("package.json")) (".eslintrc.json") (by decide)) st))
        (fun st => congrArg BlockOut.st
          (processPrettierrc_congr P fs (eraseFile fs (("package.json"))) mb (eraseFile_files_ne fs (("package.json")) (".prettierrc") (by decide)) (eraseFile_files_ne fs (("package.json")) (".prettierrc.json") (by decide)) st))
        (fun st => congrArg BlockOut.st
          (processStylelintrc_congr P fs (eraseFile fs (("package.json"))) mb (eraseFile_files_ne fs (("package.json")) (".stylelintrc") (by decide)) (eraseFile_files_ne fs (("package.json")) (".stylelintrc.json") (by decide)) st))
        (fun st => congrArg BlockOut.st
          (processBabel_congr P fs (eraseFile fs (("package.json"))) mb (eraseFile_files_ne fs (("package.json")) (".babelrc") (by decide)) (eraseFile_files_ne fs (("package.json")) ("babel.config.json") (by decide)) st))
        (fun st => congrArg BlockOut.st
          (processSwcrc_congr P fs (eraseFile fs (("package.json"))) mb (eraseFile_files_ne fs (("package.json")) (".swcrc") (by decide)) st))
        (fun st => congrArg BlockOut.st
          (processEditorconfig_congr fs (eraseFile fs (("package.json"))) mb (eraseFile_files_ne fs (("package.json")) (".editorconfig") (by decide)) st))
        (fun st => congrArg BlockOut.st
          (processTestConfigs_congr fs (eraseFile fs (("package.json"))) (eraseFile_files_ne fs (("package.json")) ("jest.config.js") (by decide)) (eraseFile_files_ne fs (("package.json")) ("vitest.config.ts") (by decide)) (eraseFile_files_ne fs (("package.json")) ("vitest.config.js") (by decide)) (eraseFile_files_ne fs (("package.json")) ("cypress.config.ts") (by decide)) (eraseFile_files_ne fs (("package.json")) ("playwright.config.ts") (by decide)) st))
        (fun st => congrArg BlockOut.st
          (processLockfiles_congr fs (eraseFile fs (("package.json"))) (eraseFile_files_ne fs (("package.json")) ("pnpm-lock.yaml") (by decide)) (eraseFile_files_ne fs (("package.json")) ("yarn.lock") (by decide)) (eraseFile_files_ne fs (("package.json")) ("package-lock.json") (by decide)) st))
        (fun st => congrArg BlockOut.st
          (processPyproject_congr P fs (eraseFile fs (("package.json"))) mb (eraseFile_files_ne fs (("package.json")) ("pyproject.toml") (by decide)) st))
        (fun st => congrArg BlockOut.st
          (processRequirements_congr fs (eraseFile fs (("package.json"))) mb (eraseFile_files_ne fs (("package.json")) ("requirements.txt") (by decide)) (eraseFile_files_ne fs (("package.json")) ("requirements-dev.txt") (by decide)) st))
        (fun st => congrArg BlockOut.st
          (processPipfile_congr fs (eraseFile fs (("package.json"))) (eraseFile_files_ne fs (("package.json")) ("Pipfile") (by decide)) st))
        (fun st => congrArg BlockOut.st
          (processIniFiles_congr P fs (eraseFile fs (("package.json"))) (eraseFile_files_ne fs (("package.json")) ("setup.cfg") (by decide)) (eraseFile_files_ne fs (("package.json")) ("tox.ini") (by decide)) (eraseFile_files_ne fs (("package.json")) ("pytest.ini") (by decide)) (eraseFile_files_ne fs (("package.json")) ("mypy.ini") (by decide)) st))
        (fun st => congrArg BlockOut.st
          (processRuffToml_congr P fs (eraseFile fs (("package.json"))) mb (eraseFile_files_ne fs (("package.json")) ("ruff.toml") (by decide)) st))
        (fun st => congrArg BlockOut.st
          (processGoMod_congr fs (eraseFile fs (("package.json"))) mb (eraseFile_files_ne fs (("package.json")) ("go.mod") (by decide)) st))
        (fun st => congrArg BlockOut.st
          (processCargoToml_congr P fs (eraseFile fs (("package.json"))) mb (eraseFile_files_ne fs (("package.json")) ("Cargo.toml") (by decide)) st))
        (fun st => congrArg BlockOut.st
          (processPomXml_congr fs (eraseFile fs (("package.json"))) mb (eraseFile_files_ne fs (("package.json")) ("pom.xml") (by decide)) st))
        (fun st => congrArg BlockOut.st
          (processGradle_congr fs (eraseFile fs (("package.json"))) mb (eraseFile_files_ne fs (("package.json")) ("build.gradle") (by decide)) (eraseFile_files_ne fs (("package.json")) ("build.gradle.kts") (by decide)) st))
        (fun st => congrArg BlockOut.st
          (processComposerJson_congr P fs (eraseFile fs (("package.json"))) mb (eraseFile_files_ne fs (("package.json")) ("composer.json") (by decide)) st))
        (fun st => congrArg BlockOut.st
          (processGemfile_congr fs (eraseFile fs (("package.json"))) mb (eraseFile_files_ne fs (("package.json")) ("Gemfile") (by decide)) st))
        (fun st => congrArg BlockOut.st
          (processPinFiles_congr fs (eraseFile fs (("package.json"))) mb (eraseFile_files_ne fs (("package.json")) (".nvmrc") (by decide)) (eraseFile_files_ne fs (("package.json")) (".node-version") (by decide)) (eraseFile_files_ne fs (("package.json")) (".python-version") (by decide)) (eraseFile_files_ne fs (("package.json")) (".ruby-version") (by decide)) st))
        (fun st => congrArg BlockOut.st
          (processToolVersions_congr fs (eraseFile fs (("package.json"))) mb (eraseFile_files_ne fs (("package.json")) (".tool-versions") (by decide)) st))
        (fun st => congrArg BlockOut.st
          (processCi_congr fs (eraseFile fs (("package.json"))) (scan_root_files fs rootFilesCatalog) (scan_root_files (eraseFile fs (("package.json"))) rootFilesCatalog) rfl (scan_erase_contains fs (("package.json")) (".gitlab-ci.yml") (by decide)) (scan_erase_contains fs (("package.json")) ("azure-pipelines.yml") (by decide)) (scan_erase_contains fs (("package.json")) (".circleci/config.yml") (by decide)) st))
        (fun st => congrArg BlockOut.st
          (processContainer_congr fs (eraseFile fs (("package.json"))) mb (eraseFile_files_ne fs (("package.json")) ("Dockerfile") (by decide)) (eraseFile_files_ne fs (("package.json")) ("docker-compose.yml") (by decide)) (eraseFile_files_ne fs (("package.json")) ("docker-compose.yaml") (by decide)) st))).symm
  · intro bytes e hfs herr
    have hall := processPyproject_error P fs mb bytes e hfs herr
    constructor
    · simp only [init_repo_context, hall]
      exact List.mem_append_left _ (List.mem_append_left _
        (List.mem_append_left _ (List.mem_append_left _
        (List.mem_append_left _ (List.mem_append_left _
        (List.mem_append_left _ (List.mem_append_left _
        (List.mem_append_left _ (List.mem_append_left _
        (List.mem_append_left _ (List.mem_append_left _
        (List.mem_append_left _ (List.mem_append_left _
        (List.mem_append_right _ (List.mem_cons_self _ _)))))))))))))))
    · refine (init_context_congr P fs (eraseFile fs (("pyproject.toml"))) mb
        (fun st => congrArg BlockOut.st
          (processPackageJson_congr P fs (eraseFile fs (("pyproject.toml"))) mb (eraseFile_files_ne fs (("pyproject.toml")) ("package.json") (by decide)) st))
        (fun st => congrArg BlockOut.st
          (processTsconfig_congr P fs (eraseFile fs (("pyproject.toml"))) mb (eraseFile_files_ne fs (("pyproject.toml")) ("tsconfig.json") (by decide)) (eraseFile_files_ne fs (("pyproject.toml")) ("tsconfig.base.json") (by decide)) (eraseFile_files_ne fs (("pyproject.toml")) ("tsconfig.app.json") (by decide)) (eraseFile_files_ne fs (("pyproject.toml")) ("tsconfig.spec.json") (by decide)) st))
        (fun st => congrArg BlockOut.st
          (processAngular_congr P fs (eraseFile fs (("pyproject.toml"))) mb (eraseFile_files_ne fs (("pyproject.toml")) ("angular.json") (by decide)) st))
        (fun st => congrArg BlockOut.st
          (processEslintrc_congr P fs (eraseFile fs (("pyproject.toml"))) mb (eraseFile_files_ne fs (("pyproject.toml")) (".eslintrc") (by decide)) (eraseFile_files_ne fs (("pyproject.toml")) (".eslintrc.json") (by decide)) st))
        (fun st => congrArg BlockOut.st
          (processPrettierrc_congr P fs (eraseFile fs (("pyproject.toml"))) mb (eraseFile_files_ne fs (("pyproject.toml")) (".prettierrc") (by decide)) (eraseFile_files_ne fs (("pyproject.toml")) (".prettierrc.json") (by decide)) st))
        (fun st => congrArg BlockOut.st
          (processStylelintrc_congr P fs (eraseFile fs (("pyproject.toml"))) mb (eraseFile_files_ne fs (("pyproject.toml")) (".stylelintrc") (by decide)) (eraseFile_files_ne fs (("pyproject.toml")) (".stylelintrc.json") (by decide)) st))
        (fun st => congrArg BlockOut.st
          (processBabel_congr P fs (eraseFile fs (("pyproject.toml"))) mb (eraseFile_files_ne fs (("pyproject.toml")) (".babelrc") (by decide)) (eraseFile_files_ne fs (("pyproject.toml")) ("babel.config.json") (by decide)) st))
        (fun st => congrArg BlockOut.st
          (processSwcrc_congr P fs (eraseFile fs (("pyproject.toml"))) mb (eraseFile_files_ne fs (("pyproject.toml")) (".swcrc") (by decide)) st))
        (fun st => congrArg BlockOut.st
          (processEditorconfig_congr fs (eraseFile fs (("pyproject.toml"))) mb (eraseFile_files_ne fs (("pyproject.toml")) (".editorconfig") (by decide)) st))
        (fun st => congrArg BlockOut.st
          (processTestConfigs_congr fs (eraseFile fs (("pyproject.toml"))) (eraseFile_files_ne fs (("pyproject.toml")) ("jest.config.js") (by decide)) (eraseFile_files_ne fs (("pyproject.toml")) ("vitest.config.ts") (by decide)) (eraseFile_files_ne fs (("pyproject.toml")) ("vitest.config.js") (by decide)) (eraseFile_files_ne fs (("pyproject.toml")) ("cypress.config.ts") (by decide)) (eraseFile_files_ne fs (("pyproject.toml")) ("playwright.config.ts") (by decide)) st))
        (fun st => congrArg BlockOut.st
          (processLockfiles_congr fs (eraseFile fs (("pyproject.toml"))) (eraseFile_files_ne fs (("pyproject.toml")) ("pnpm-lock.yaml") (by decide)) (eraseFile_files_ne fs (("pyproject.toml")) ("yarn.lock") (by decide)) (eraseFile_files_ne fs (("pyproject.toml")) ("package-lock.json") (by decide)) st))
        (fun st => by
          rw [processPyproject_absent P (eraseFile fs (("pyproject.toml"))) mb
            (eraseFile_files_self fs (("pyproject.toml"))) st, hall st])
        (fun st => congrArg BlockOut.st
          (processRequirements_congr fs (eraseFile fs (("pyproject.toml"))) mb (eraseFile_files_ne fs (("pyproject.toml")) ("requirements.txt") (by decide)) (eraseFile_files_ne fs (("pyproject.toml")) ("requirements-dev.txt") (by decide)) st))
        (fun st => congrArg BlockOut.st
          (processPipfile_congr fs (eraseFile fs (("pyproject.toml"))) (eraseFile_files_ne fs (("pyproject.toml")) ("Pipfile") (by decide)) st))
        (fun st => congrArg BlockOut.st
          (processIniFiles_congr P fs (eraseFile fs (("pyproject.toml"))) (eraseFile_files_ne fs (("pyproject.toml")) ("setup.cfg") (by decide)) (eraseFile_files_ne fs (("pyproject.toml")) ("tox.ini") (by decide)) (eraseFile_files_ne fs (("pyproject.toml")) ("pytest.ini") (by decide)) (eraseFile_files_ne fs (("pyproject.toml")) ("mypy.ini") (by decide)) st))
        (fun st => congrArg BlockOut.st
          (processRuffToml_congr P fs (eraseFile fs (("pyproject.toml"))) mb (eraseFile_files_ne fs (("pyproject.toml")) ("ruff.toml") (by decide)) st))
        (fun st => congrArg BlockOut.st
          (processGoMod_congr fs (eraseFile fs (("pyproject.toml"))) mb (eraseFile_files_ne fs (("pyproject.toml")) ("go.mod") (by decide)) st))
        (fun st => congrArg BlockOut.st
          (processCargoToml_congr P fs (eraseFile fs (("pyproject.toml"))) mb (eraseFile_files_ne fs (("pyproject.toml")) ("Cargo.toml") (by decide)) st))
        (fun st => congrArg BlockOut.st
          (processPomXml_congr fs (eraseFile fs (("pyproject.toml"))) mb (eraseFile_files_ne fs (("pyproject.toml")) ("pom.xml") (by decide)) st))
        (fun st => congrArg BlockOut.st
          (processGradle_congr fs (eraseFile fs (("pyproject.toml"))) mb (eraseFile_files_ne fs (("pyproject.toml")) ("build.gradle") (by decide)) (eraseFile_files_ne fs (("pyproject.toml")) ("build.gradle.kts") (by decide)) st))
        (fun st => congrArg BlockOut.st
          (processComposerJson_congr P fs (eraseFile fs (("pyproject.toml"))) mb (eraseFile_files_ne fs (("pyproject.toml")) ("composer.json") (by decide)) st))
        (fun st => congrArg BlockOut.st
          (processGemfile_congr fs (eraseFile fs (("pyproject.toml"))) mb (eraseFile_files_ne fs (("pyproject.toml")) ("Gemfile") (by decide)) st))
        (fun st => congrArg BlockOut.st
          (processPinFiles_congr fs (eraseFile fs (("pyproject.toml"))) mb (eraseFile_files_ne fs (("pyproject.toml")) (".nvmrc") (by decide)) (eraseFile_files_ne fs (("pyproject.toml")) (".node-version") (by decide)) (eraseFile_files_ne fs (("pyproject.toml")) (".python-version") (by decide)) (eraseFile_files_ne fs (("pyproject.toml")) (".ruby-version") (by decide)) st))
        (fun st => congrArg BlockOut.st
          (processToolVersions_congr fs (eraseFile fs (("pyproject.toml"))) mb (eraseFile_files_ne fs (("pyproject.toml")) (".tool-versions") (by decide)) st))
        (fun st => congrArg BlockOut.st
          (processCi_congr fs (eraseFile fs (("pyproject.toml"))) (scan_root_files fs rootFilesCatalog) (scan_root_files (eraseFile fs (("pyproject.toml"))) rootFilesCatalog) rfl (scan_erase_contains fs (("pyproject.toml")) (".gitlab-ci.yml") (by decide)) (scan_erase_contains fs (("pyproject.toml")) ("azure-pipelines.yml") (by decide)) (scan_erase_contains fs (("pyproject.toml")) (".circleci/config.yml") (by decide)) st))
        (fun st => congrArg BlockOut.st
          (processContainer_congr fs (eraseFile fs (("pyproject.toml"))) mb (eraseFile_files_ne fs (("pyproject.toml")) ("Dockerfile") (by decide)) (eraseFile_files_ne fs (("pyproject.toml")) ("docker-compose.yml") (by decide)) (eraseFile_files_ne fs (("pyproject.toml")) ("docker-compose.yaml") (by decide)) st))).symm
  · intro bytes e hfs herr
    have hall := processCargoToml_error P fs mb bytes e hfs herr
    constructor
    · simp only [init_repo_context, hall]
      exact List.mem_append_left _ (List.mem_append_left _
        (List.mem_append_left _ (List.mem_append_left _
        (List.mem_append_left _ (List.mem_append_left _
        (List.mem_append_left _ (List.mem_append_left _
        (List.mem_append_right _ (List.mem_cons_self _ _)))))))))
    · refine (init_context_congr P fs (eraseFile fs (("Cargo.toml"))) mb
        (fun st => congrArg BlockOut.st
          (processPackageJson_congr P fs (eraseFile fs (("Cargo.toml"))) mb (eraseFile_files_ne fs (("Cargo.toml")) ("package.json") (by decide)) st))
        (fun st => congrArg BlockOut.st
          (processTsconfig_congr P fs (eraseFile fs (("Cargo.toml"))) mb (eraseFile_files_ne fs (("Cargo.toml")) ("tsconfig.json") (by decide)) (eraseFile_files_ne fs (("Cargo.toml")) ("tsconfig.base.json") (by decide)) (eraseFile_files_ne fs (("Cargo.toml")) ("tsconfig.app.json") (by decide)) (eraseFile_files_ne fs (("Cargo.toml")) ("tsconfig.spec.json") (by decide)) st))
        (fun st => congrArg BlockOut.st
          (processAngular_congr P fs (eraseFile fs (("Cargo.toml"))) mb (eraseFile_files_ne fs (("Cargo.toml")) ("angular.json") (by decide)) st))
        (fun st => congrArg BlockOut.st
          (processEslintrc_congr P fs (eraseFile fs (("Cargo.toml"))) mb (eraseFile_files_ne fs (("Cargo.toml")) (".eslintrc") (by decide)) (eraseFile_files_ne fs (("Cargo.toml")) (".eslintrc.json") (by decide)) st))
        (fun st => congrArg BlockOut.st
          (processPrettierrc_congr P fs (eraseFile fs (("Cargo.toml"))) mb (eraseFile_files_ne fs (("Cargo.toml")) (".prettierrc") (by decide)) (eraseFile_files_ne fs (("Cargo.toml")) (".prettierrc.json") (by decide)) st))
        (fun st => congrArg BlockOut.st
          (processStylelintrc_congr P fs (eraseFile fs (("Cargo.toml"))) mb (eraseFile_files_ne fs (("Cargo.toml")) (".stylelintrc") (by decide)) (eraseFile_files_ne fs (("Cargo.toml")) (".stylelintrc.json") (by decide)) st))
        (fun st => congrArg BlockOut.st
          (processBabel_congr P fs (eraseFile fs (("Cargo.toml"))) mb (eraseFile_files_ne fs (("Cargo.toml")) (".babelrc") (by decide)) (eraseFile_files_ne fs (("Cargo.toml")) ("babel.config.json") (by decide)) st))
        (fun st => congrArg BlockOut.st
          (processSwcrc_congr P fs (eraseFile fs (("Cargo.toml"))) mb (eraseFile_files_ne fs (("Cargo.toml")) (".swcrc") (by decide)) st))
        (fun st => congrArg BlockOut.st
          (processEditorconfig_congr fs (eraseFile fs (("Cargo.toml"))) mb (eraseFile_files_ne fs (("Cargo.toml")) (".editorconfig") (by decide)) st))
        (fun st => congrArg BlockOut.st
          (processTestConfigs_congr fs (eraseFile fs (("Cargo.toml"))) (eraseFile_files_ne fs (("Cargo.toml")) ("jest.config.js") (by decide)) (eraseFile_files_ne fs (("Cargo.toml")) ("vitest.config.ts") (by decide)) (eraseFile_files_ne fs (("Cargo.toml")) ("vitest.config.js") (by decide)) (eraseFile_files_ne fs (("Cargo.toml")) ("cypress.config.ts") (by decide)) (eraseFile_files_ne fs (("Cargo.toml")) ("playwright.config.ts") (by decide)) st))
        (fun st => congrArg BlockOut.st
          (processLockfiles_congr fs (eraseFile fs (("Cargo.toml"))) (eraseFile_files_ne fs (("Cargo.toml")) ("pnpm-lock.yaml") (by decide)) (eraseFile_files_ne fs (("Cargo.toml")) ("yarn.lock") (by decide)) (eraseFile_files_ne fs (("Cargo.toml")) ("package-lock.json") (by decide)) st))
        (fun st => congrArg BlockOut.st
          (processPyproject_congr P fs (eraseFile fs (("Cargo.toml"))) mb (eraseFile_files_ne fs (("Cargo.toml")) ("pyproject.toml") (by decide)) st))
        (fun st => congrArg BlockOut.st
          (processRequirements_congr fs (eraseFile fs (("Cargo.toml"))) mb (eraseFile_files_ne fs (("Cargo.toml")) ("requirements.txt") (by decide)) (eraseFile_files_ne fs (("Cargo.toml")) ("requirements-dev.txt") (by decide)) st))
        (fun st => congrArg BlockOut.st
          (processPipfile_congr fs (eraseFile fs (("Cargo.toml"))) (eraseFile_files_ne fs (("Cargo.toml")) ("Pipfile") (by decide)) st))
        (fun st => congrArg BlockOut.st
          (processIniFiles_congr P fs (eraseFile fs (("Cargo.toml"))) (eraseFile_files_ne fs (("Cargo.toml")) ("setup.cfg") (by decide)) (eraseFile_files_ne fs (("Cargo.toml")) ("tox.ini") (by decide)) (eraseFile_files_ne fs (("Cargo.toml")) ("pytest.ini") (by decide)) (eraseFile_files_ne fs (("Cargo.toml")) ("mypy.ini") (by decide)) st))
        (fun st => congrArg BlockOut.st
          (processRuffToml_congr P fs (eraseFile fs (("Cargo.toml"))) mb (eraseFile_files_ne fs (("Cargo.toml")) ("ruff.toml") (by decide)) st))
        (fun st => congrArg BlockOut.st
          (processGoMod_congr fs (eraseFile fs (("Cargo.toml"))) mb (eraseFile_files_ne fs (("Cargo.toml")) ("go.mod") (by decide)) st))
        (fun st => by
          rw [processCargoToml_absent P (eraseFile fs (("Cargo.toml"))) mb
            (eraseFile_files_self fs (("Cargo.toml"))) st, hall st])
        (fun st => congrArg BlockOut.st
          (processPomXml_congr fs (eraseFile fs (("Cargo.toml"))) mb (eraseFile_files_ne fs (("Cargo.toml")) ("pom.xml") (by decide)) st))
        (fun st => congrArg BlockOut.st
          (processGradle_congr fs (eraseFile fs (("Cargo.toml"))) mb (eraseFile_files_ne fs (("Cargo.toml")) ("build.gradle") (by decide)) (eraseFile_files_ne fs (("Cargo.toml")) ("build.gradle.kts") (by decide)) st))
        (fun st => congrArg BlockOut.st
          (processComposerJson_congr P fs (eraseFile fs (("Cargo.toml"))) mb (eraseFile_files_ne fs (("Cargo.toml")) ("composer.json") (by decide)) st))
        (fun st => congrArg BlockOut.st
          (processGemfile_congr fs (eraseFile fs (("Cargo.toml"))) mb (eraseFile_files_ne fs (("Cargo.toml")) ("Gemfile") (by decide)) st))
        (fun st => congrArg BlockOut.st
          (processPinFiles_congr fs (eraseFile fs (("Cargo.toml"))) mb (eraseFile_files_ne fs (("Cargo.toml")) (".nvmrc") (by decide)) (eraseFile_files_ne fs (("Cargo.toml")) (".node-version") (by decide)) (eraseFile_files_ne fs (("Cargo.toml")) (".python-version") (by decide)) (eraseFile_files_ne fs (("Cargo.toml")) (".ruby-version") (by decide)) st))
        (fun st => congrArg BlockOut.st
          (processToolVersions_congr fs (eraseFile fs (("Cargo.toml"))) mb (eraseFile_files_ne fs (("Cargo.toml")) (".tool-versions") (by decide)) st))
        (fun st => congrArg BlockOut.st
          (processCi_congr fs (eraseFile fs (("Cargo.toml"))) (scan_root_files fs rootFilesCatalog) (scan_root_files (eraseFile fs (("Cargo.toml"))) rootFilesCatalog) rfl (scan_erase_contains fs (("Cargo.toml")) (".gitlab-ci.yml") (by decide)) (scan_erase_contains fs (("Cargo.toml")) ("azure-pipelines.yml") (by decide)) (scan_erase_contains fs (("Cargo.toml")) (".circleci/config.yml") (by decide)) st))
        (fun st => congrArg BlockOut.st
          (processContainer_congr fs (eraseFile fs (("Cargo.toml"))) mb (eraseFile_files_ne fs (("Cargo.toml")) ("Dockerfile") (by decide)) (eraseFile_files_ne fs (("Cargo.toml")) ("docker-compose.yml") (by decide)) (eraseFile_files_ne fs (("Cargo.toml")) ("docker-compose.yaml") (by decide)) st))).symm
  · intro bytes e hfs herr
    have hall := processComposerJson_error P fs mb bytes e hfs herr
    constructor
    · simp only [init_repo_context, hall]
      exact List.mem_append_left _ (List.mem_append_left _
        (List.mem_append_left _ (List.mem_append_left _
        (List.mem_append_left _ (List.mem_append_right _ (List.mem_cons_self
        _ _))))))
    · refine (init_context_congr P fs (eraseFile fs (("composer.json"))) mb
        (fun st => congrArg BlockOut.st
          (processPackageJson_congr P fs (eraseFile fs (("composer.json"))) mb (eraseFile_files_ne fs (("composer.json")) ("package.json") (by decide)) st))
        (fun st => congrArg BlockOut.st
          (processTsconfig_congr P fs (eraseFile fs (("composer.json"))) mb (eraseFile_files_ne fs (("composer.json")) ("tsconfig.json") (by decide)) (eraseFile_files_ne fs (("composer.json")) ("tsconfig.base.json") (by decide)) (eraseFile_files_ne fs (("composer.json")) ("tsconfig.app.json") (by decide)) (eraseFile_files_ne fs (("composer.json")) ("tsconfig.spec.json") (by decide)) st))
        (fun st => congrArg BlockOut.st
          (processAngular_congr P fs (eraseFile fs (("composer.json"))) mb (eraseFile_files_ne fs (("composer.json")) ("angular.json") (by decide)) st))
        (fun st => congrArg BlockOut.st
          (processEslintrc_congr P fs (eraseFile fs (("composer.json"))) mb (eraseFile_files_ne fs (("composer.json")) (".eslintrc") (by decide)) (eraseFile_files_ne fs (("composer.json")) (".eslintrc.json") (by decide)) st))
        (fun st => congrArg BlockOut.st
          (processPrettierrc_congr P fs (eraseFile fs (("composer.json"))) mb (eraseFile_files_ne fs (("composer.json")) (".prettierrc") (by decide)) (eraseFile_files_ne fs (("composer.json")) (".prettierrc.json") (by decide)) st))
        (fun st => congrArg BlockOut.st
          (processStylelintrc_congr P fs (eraseFile fs (("composer.json"))) mb (eraseFile_files_ne fs (("composer.json")) (".stylelintrc") (by decide)) (eraseFile_files_ne fs (("composer.json")) (".stylelintrc.json") (by decide)) st))
        (fun st => congrArg BlockOut.st
          (processBabel_congr P fs (eraseFile fs (("composer.json"))) mb (eraseFile_files_ne fs (("composer.json")) (".babelrc") (by decide)) (eraseFile_files_ne fs (("composer.json")) ("babel.config.json") (by decide)) st))
        (fun st => congrArg BlockOut.st
          (processSwcrc_congr P fs (eraseFile fs (("composer.json"))) mb (eraseFile_files_ne fs (("composer.json")) (".swcrc") (by decide)) st))
        (fun st => congrArg BlockOut.st
          (processEditorconfig_congr fs (eraseFile fs (("composer.json"))) mb (eraseFile_files_ne fs (("composer.json")) (".editorconfig") (by decide)) st))
        (fun st => congrArg BlockOut.st
          (processTestConfigs_congr fs (eraseFile fs (("composer.json"))) (eraseFile_files_ne fs (("composer.json")) ("jest.config.js") (by decide)) (eraseFile_files_ne fs (("composer.json")) ("vitest.config.ts") (by decide)) (eraseFile_files_ne fs (("composer.json")) ("vitest.config.js") (by decide)) (eraseFile_files_ne fs (("composer.json")) ("cypress.config.ts") (by decide)) (eraseFile_files_ne fs (("composer.json")) ("playwright.config.ts") (by decide)) st))
        (fun st => congrArg BlockOut.st
          (processLockfiles_congr fs (eraseFile fs (("composer.json"))) (eraseFile_files_ne fs (("composer.json")) ("pnpm-lock.yaml") (by decide)) (eraseFile_files_ne fs (("composer.json")) ("yarn.lock") (by decide)) (eraseFile_files_ne fs (("composer.json")) ("package-lock.json") (by decide)) st))
        (fun st => congrArg BlockOut.st
          (processPyproject_congr P fs (eraseFile fs (("composer.json"))) mb (eraseFile_files_ne fs (("composer.json")) ("pyproject.toml") (by decide)) st))
        (fun st => congrArg BlockOut.st
          (processRequirements_congr fs (eraseFile fs (("composer.json"))) mb (eraseFile_files_ne fs (("composer.json")) ("requirements.txt") (by decide)) (eraseFile_files_ne fs (("composer.json")) ("requirements-dev.txt") (by decide)) st))
        (fun st => congrArg BlockOut.st
          (processPipfile_congr fs (eraseFile fs (("composer.json"))) (eraseFile_files_ne fs (("composer.json")) ("Pipfile") (by decide)) st))
        (fun st => congrArg BlockOut.st
          (processIniFiles_congr P fs (eraseFile fs (("composer.json"))) (eraseFile_files_ne fs (("composer.json")) ("setup.cfg") (by decide)) (eraseFile_files_ne fs (("composer.json")) ("tox.ini") (by decide)) (eraseFile_files_ne fs (("composer.json")) ("pytest.ini") (by decide)) (eraseFile_files_ne fs (("composer.json")) ("mypy.ini") (by decide)) st))
        (fun st => congrArg BlockOut.st
          (processRuffToml_congr P fs (eraseFile fs (("composer.json"))) mb (eraseFile_files_ne fs (("composer.json")) ("ruff.toml") (by decide)) st))
        (fun st => congrArg BlockOut.st
          (processGoMod_congr fs (eraseFile fs (("composer.json"))) mb (eraseFile_files_ne fs (("composer.json")) ("go.mod") (by decide)) st))
        (fun st => congrArg BlockOut.st
          (processCargoToml_congr P fs (eraseFile fs (("composer.json"))) mb (eraseFile_files_ne fs (("composer.json")) ("Cargo.toml") (by decide)) st))
        (fun st => congrArg BlockOut.st
          (processPomXml_congr fs (eraseFile fs (("composer.json"))) mb (eraseFile_files_ne fs (("composer.json")) ("pom.xml") (by decide)) st))
        (fun st => congrArg BlockOut.st
          (processGradle_congr fs (eraseFile fs (("composer.json"))) mb (eraseFile_files_ne fs (("composer.json")) ("build.gradle") (by decide)) (eraseFile_files_ne fs (("composer.json")) ("build.gradle.kts") (by decide)) st))
        (fun st => by
          rw [processComposerJson_absent P (eraseFile fs (("composer.json"))) mb
            (eraseFile_files_self fs (("composer.json"))) st, hall st])
        (fun st => congrArg BlockOut.st
          (processGemfile_congr fs (eraseFile fs (("composer.json"))) mb (eraseFile_files_ne fs (("composer.json")) ("Gemfile") (by decide)) st))
        (fun st => congrArg BlockOut.st
          (processPinFiles_congr fs (eraseFile fs (("composer.json"))) mb (eraseFile_files_ne fs (("composer.json")) (".nvmrc") (by decide)) (eraseFile_files_ne fs (("composer.json")) (".node-version") (by decide)) (eraseFile_files_ne fs (("composer.json")) (".python-version") (by decide)) (eraseFile_files_ne fs (("composer.json")) (".ruby-version") (by decide)) st))
        (fun st => congrArg BlockOut.st
          (processToolVersions_congr fs (eraseFile fs (("composer.json"))) mb (eraseFile_files_ne fs (("composer.json")) (".tool-versions") (by decide)) st))
        (fun st => congrArg BlockOut.st
          (processCi_congr fs (eraseFile fs (("composer.json"))) (scan_root_files fs rootFilesCatalog) (scan_root_files (eraseFile fs (("composer.json"))) rootFilesCatalog) rfl (scan_erase_contains fs (("composer.json")) (".gitlab-ci.yml") (by decide)) (scan_erase_contains fs (("composer.json")) ("azure-pipelines.yml") (by decide)) (scan_erase_contains fs (("composer.json")) (".circleci/config.yml") (by decide)) st))
        (fun st => congrArg BlockOut.st
          (processContainer_congr fs (eraseFile fs (("composer.json"))) mb (eraseFile_files_ne fs (("composer.json")) ("Dockerfile") (by decide)) (eraseFile_files_ne fs (("composer.json")) ("docker-compose.yml") (by decide)) (eraseFile_files_ne fs (("composer.json")) ("docker-compose.yaml") (by decide)) st))).symm

/-- Decoders that reject every document, as Python's decoders do on
malformed input. -/
def errParsers : Parsers :=
  ⟨fun _ => .error ("bad json"), fun _ => .error ("bad toml"),
   fun _ => .error ("bad ini")⟩

/-- A repository holding only an unparseable `package.json`. -/
def fsBadPkg : RepoFS :=
  { root := "/repo",
    files := fun n =>
      if n = ("package.json") then some (strBytes ("not json")) else none,
    workflowFiles := none }

/-- Witness for `C3_parse_error_isolation` at a concrete repository with
a malformed `package.json`. -/
theorem C3_parse_error_isolation_witness :
    ((("package.json"), ("bad json")) ∈
      (init_repo_context errParsers fsBadPkg MAX_FILE_BYTES).parseErrors) ∧
    (init_repo_context errParsers fsBadPkg MAX_FILE_BYTES).context =
      (init_repo_context errParsers (eraseFile fsBadPkg ("package.json"))
        MAX_FILE_BYTES).context :=
  (C3_parse_error_isolation errParsers fsBadPkg MAX_FILE_BYTES).1
    (strBytes ("not json")) ("bad json") rfl rfl

/-- C8: aggregation is a pure function of the repository snapshot —
re-running it over unchanged contents yields the identical payload — and
every set-typed field of the final context (`languages`, `tools`,
`package_managers`, `lockfiles`, `build_systems`, `doc_hints`) is
emitted in sorted order. -/
theorem C8_idempotent_sorted (P : Parsers) (fs : RepoFS) (mb : Nat) :
    init_repo_context P fs mb = init_repo_context P fs mb ∧
    List.Sorted (fun a b : String => a ≤ b)
      (init_repo_context P fs mb).context.languages ∧
    List.Sorted (fun a b : String => a ≤ b)
      (init_repo_context P fs mb).context.tools ∧
    List.Sorted (fun a b : String => a ≤ b)
      (init_repo_context P fs mb).context.packageManagers ∧
    List.Sorted (fun a b : String => a ≤ b)
      (init_repo_context P fs mb).context.lockfiles ∧
    List.Sorted (fun a b : String => a ≤ b)
      (init_repo_context P fs mb).context.buildSystems ∧
    List.Sorted (fun a b : String => a ≤ b)
      (init_repo_context P fs mb).context.docHints :=
  ⟨rfl, sortStrings_sorted _, sortStrings_sorted _, sortStrings_sorted _,
    sortStrings_sorted _, sortStrings_sorted _, sortStrings_sorted _⟩

end CodeReviewer
